import Mathlib

/-!
Shallow embedding of the COVID-19 agent-based model
(`src/covid_abm/models/{person,parameters,population,main_model}.py`).

Modelling conventions:
* Python floats are modelled as exact rationals (`ℚ`).
* The population dict `self.population.people` (integer keys `0..size-1`,
  created once in `Population._create_population` and never inserted into or
  deleted from afterwards — all later code only mutates person objects'
  fields) is modelled as a total map `ℕ → Person` together with the fixed
  `size`; mutation of a person object becomes `Function.update` at its key.
* Every random draw (`random.random`, `random.sample`, `np.random.choice`,
  `np.random.gamma`, `np.random.negative_binomial`, `random.gauss`,
  `np.random.lognormal`) is replaced by a value supplied by an `Oracle`,
  indexed by the call site (day, person id, ...).  Each call site of the
  Python program maps to a distinct oracle field/index, so every concrete
  execution of the program corresponds to some oracle, and a `∀`-oracle
  theorem covers every outcome of the draws.  Only the support of each
  distribution matters for the claims; means/std-devs shape distributions
  only and are kept as (documented) unused arguments where applicable.
* `math.exp` is transcendental, hence not representable exactly in `ℚ`;
  the model takes an abstract map `expQ : ℚ → ℚ` (a field of `Config`).
  Theorems that need facts about `exp` assume `ExpValid` (`exp` of a
  nonpositive argument lies in `[0,1]`), which the real exponential
  satisfies; counterexamples instantiate `expQ` with a rational value
  inside the real exponential's range.
-/

namespace CovidABM

/- Batteries marks the `Rat` arithmetic operations `@[irreducible]`; concrete
evaluation of the model (witnesses, counterexamples) needs them to unfold. -/
attribute [local semireducible] Rat.add Rat.mul Rat.inv Rat.sub Rat.ofScientific

/-- The 11-value disease state enumeration (`person.py`, `DiseaseState`). -/
inductive DiseaseState where
  | susceptible
  | presymptomatic
  | asymptomatic
  | symptomaticMild
  | symptomaticSevere
  | hospitalized
  | critical
  | recoveredProtected
  | recoveredPartial
  | recoveredWaned
  | dead
deriving DecidableEq

/-- The vaccine archetypes (`parameters.py`, `vaccine_type` strings). -/
inductive VaccineKind where
  | none
  | sterilizing
  | nonSterilizing
deriving DecidableEq

/-- Agent record: the fields of `Person.__init__` that the engine reads or
writes (testing/tracing/app fields are written nowhere in the engine and are
omitted). -/
structure Person where
  id : ℕ
  ageGroup : ℕ
  householdId : ℕ
  occupationId : Option ℕ
  diseaseState : DiseaseState
  infectionDay : ℤ
  daysInfected : ℕ
  symptomOnsetDay : ℤ
  willBeAsymptomatic : Bool
  willBeMild : Bool
  willBeHospitalised : Bool
  willBeCritical : Bool
  willDie : Bool
  timeToSymptoms : ℕ
  timeToHospital : ℕ
  timeToCritical : ℕ
  timeToDeath : ℕ
  timeToRecover : ℕ
  infectiousProfile : List ℚ
  individualInfectiousnessFactor : ℚ
  recoveryDay : ℤ
  reinfectionProtectionEnd : ℤ
  severeProtectionLevel : ℚ
  infectionProtectionLevel : ℚ
  numInfections : ℕ
  vaccinationDoses : ℕ
  dose1Day : ℤ
  dose2Day : ℤ
  vaccineKind : VaccineKind
  vaccineProtectionInfection : ℚ
  vaccineProtectionSevere : ℚ
  quarantined : Bool
  quarantineStartDay : ℤ
  dailyInteractionsTarget : ℚ
deriving DecidableEq

/-- Disease progression and transmission parameters (`DiseaseParameters`). -/
structure DiseaseParameters where
  infectiousRate : ℚ
  asymptomaticInfectiousFactor : ℚ
  mildInfectiousFactor : ℚ
  severeInfectiousFactor : ℚ
  fractionAsymptomatic : List ℚ
  fractionMild : List ℚ
  fractionHospitalised : List ℚ
  fractionCritical : List ℚ
  fractionFatality : List ℚ
  relativeSusceptibility : List ℚ
  meanTimeToSymptoms : ℚ
  sdTimeToSymptoms : ℚ
  meanSymptomToRecoverMild : ℚ
  sdSymptomToRecoverMild : ℚ
  meanSymptomToHospital : ℚ
  sdSymptomToHospital : ℚ
  meanHospitalToRecover : ℚ
  sdHospitalToRecover : ℚ
  meanHospitalToCritical : ℚ
  sdHospitalToCritical : ℚ
  meanCriticalToDeath : ℚ
  sdCriticalToDeath : ℚ
  meanCriticalToRecover : ℚ
  sdCriticalToRecover : ℚ
  meanAsymptomaticToRecover : ℚ
  sdAsymptomaticToRecover : ℚ
  reinfectionProtectionDays : ℚ
  severeProtectionDays : ℚ
  severeProtectionDecayRate : ℚ
  reinfectionProtectionLevel : ℚ
  partialImmunityFloor : ℚ


/-- Social network parameters (`NetworkParameters`). -/
structure NetworkParameters where
  householdSizeDist : List ℚ
  meanDailyInteractions : List ℚ
  meanWorkInteractionsChild : ℚ
  meanWorkInteractionsTeen : ℚ
  meanWorkInteractionsAdult : ℚ
  meanWorkInteractionsElderly : ℚ
  meanRandomInteractions : List ℚ
  overdispersionRandom : ℚ
  dailyFractionWork : ℚ
  childNetworkAdultsRatio : ℚ
  elderlyNetworkAdultsRatio : ℚ
  relativeTransmissionHousehold : ℚ
  relativeTransmissionOccupation : ℚ
  relativeTransmissionRandom : ℚ


/-- Intervention parameters used by the engine (`InterventionParameters`;
the testing/tracing/lockdown fields are never read by the engine). -/
structure InterventionParameters where
  selfQuarantineFraction : ℚ
  selfQuarantineDays : ℤ


/-- Vaccination parameters (`VaccineParameters`). -/
structure VaccineParameters where
  vaccineType : VaccineKind
  sterilizingEfficacyInfection : ℚ
  sterilizingProtectionDays : ℚ
  sterilizingDecayRate : ℚ
  nonSterilizingEfficacyInfectionDose1 : ℚ
  nonSterilizingEfficacyInfectionDose2 : ℚ
  nonSterilizingEfficacySevereDose1 : ℚ
  nonSterilizingEfficacySevereDose2 : ℚ
  nonSterilizingProtectionDays : ℚ
  nonSterilizingDecayRate : ℚ
  doseIntervalDays : ℤ
  timeToProtectionDose1 : ℤ
  timeToProtectionDose2 : ℤ
  vaccinationRateByAge : List ℚ


/-- Default `DiseaseParameters()` values from `parameters.py`. -/
def defaultDisease : DiseaseParameters :=
  { infectiousRate := 35
    asymptomaticInfectiousFactor := 0.33
    mildInfectiousFactor := 0.72
    severeInfectiousFactor := 1
    fractionAsymptomatic := [0.50, 0.45, 0.40, 0.35, 0.30, 0.25, 0.20, 0.15, 0.10]
    fractionMild := [0.48, 0.50, 0.53, 0.55, 0.56, 0.54, 0.50, 0.45, 0.40]
    fractionHospitalised := [0.015, 0.020, 0.035, 0.050, 0.080, 0.120, 0.180, 0.250, 0.300]
    fractionCritical := [0.004, 0.005, 0.010, 0.020, 0.040, 0.070, 0.100, 0.150, 0.200]
    fractionFatality := [0.0002, 0.0005, 0.0010, 0.0020, 0.0050, 0.0100, 0.0300, 0.0800, 0.1500]
    relativeSusceptibility := [0.4, 0.4, 0.8, 1, 1, 1, 1, 1, 1]
    meanTimeToSymptoms := 5
    sdTimeToSymptoms := 2
    meanSymptomToRecoverMild := 8
    sdSymptomToRecoverMild := 3
    meanSymptomToHospital := 6.5
    sdSymptomToHospital := 2.5
    meanHospitalToRecover := 10
    sdHospitalToRecover := 4
    meanHospitalToCritical := 3
    sdHospitalToCritical := 1.5
    meanCriticalToDeath := 9
    sdCriticalToDeath := 3
    meanCriticalToRecover := 14
    sdCriticalToRecover := 5
    meanAsymptomaticToRecover := 12
    sdAsymptomaticToRecover := 4
    reinfectionProtectionDays := 180
    severeProtectionDays := 540
    severeProtectionDecayRate := 0.25
    reinfectionProtectionLevel := 0.75
    partialImmunityFloor := 0.15 }

/-- Default `NetworkParameters()` values from `parameters.py`. -/
def defaultNetwork : NetworkParameters :=
  { householdSizeDist := [0.28, 0.34, 0.16, 0.13, 0.06, 0.03]
    meanDailyInteractions := [11.8, 15.6, 14.6, 13.6, 14.7, 13.8, 10.2, 7.6, 4.0]
    meanWorkInteractionsChild := 8
    meanWorkInteractionsTeen := 16
    meanWorkInteractionsAdult := 7
    meanWorkInteractionsElderly := 2
    meanRandomInteractions := [2, 3, 4, 4, 4, 4, 3, 2, 1]
    overdispersionRandom := 0.62
    dailyFractionWork := 0.5
    childNetworkAdultsRatio := 0.2
    elderlyNetworkAdultsRatio := 0.2
    relativeTransmissionHousehold := 2
    relativeTransmissionOccupation := 1
    relativeTransmissionRandom := 1 }

/-- Default `InterventionParameters()` values from `parameters.py`. -/
def defaultIntervention : InterventionParameters :=
  { selfQuarantineFraction := 0
    selfQuarantineDays := 7 }

/-- Default `VaccineParameters()` values from `parameters.py`. -/
def defaultVaccine : VaccineParameters :=
  { vaccineType := .none
    sterilizingEfficacyInfection := 0.95
    sterilizingProtectionDays := 1095
    sterilizingDecayRate := 0.3
    nonSterilizingEfficacyInfectionDose1 := 0.20
    nonSterilizingEfficacyInfectionDose2 := 0.20
    nonSterilizingEfficacySevereDose1 := 0.80
    nonSterilizingEfficacySevereDose2 := 0.95
    nonSterilizingProtectionDays := 1095
    nonSterilizingDecayRate := 0.3
    doseIntervalDays := 28
    timeToProtectionDose1 := 14
    timeToProtectionDose2 := 7
    vaccinationRateByAge := [0, 0, 0, 0, 0, 0, 0, 0, 0] }

/-- A fresh agent as created by `Person.__init__(person_id, age_group,
household_id)` (disease-relevant fields). -/
def initPerson (personId ageGroup householdId : ℕ) : Person :=
  { id := personId
    ageGroup := ageGroup
    householdId := householdId
    occupationId := Option.none
    diseaseState := .susceptible
    infectionDay := -1
    daysInfected := 0
    symptomOnsetDay := -1
    willBeAsymptomatic := false
    willBeMild := false
    willBeHospitalised := false
    willBeCritical := false
    willDie := false
    timeToSymptoms := 0
    timeToHospital := 0
    timeToCritical := 0
    timeToDeath := 0
    timeToRecover := 0
    infectiousProfile := []
    individualInfectiousnessFactor := 1
    recoveryDay := -1
    reinfectionProtectionEnd := -1
    severeProtectionLevel := 0
    infectionProtectionLevel := 0
    numInfections := 0
    vaccinationDoses := 0
    dose1Day := -1
    dose2Day := -1
    vaccineKind := .none
    vaccineProtectionInfection := 0
    vaccineProtectionSevere := 0
    quarantined := false
    quarantineStartDay := -1
    dailyInteractionsTarget := 0 }

/-- Python `int(x)` on a float: truncation toward zero. -/
def pyInt (x : ℚ) : ℤ := if x < 0 then -⌊-x⌋ else ⌊x⌋

/-- Python 3 `round(x)` to an integer: nearest, ties to even. -/
def pyRound (x : ℚ) : ℤ :=
  if 2 * x = 2 * (⌊x⌋ : ℚ) + 1 then (if 2 ∣ ⌊x⌋ then ⌊x⌋ else ⌊x⌋ + 1)
  else ⌊x + 1 / 2⌋

/-- The oracle: one field per random call site of the engine, indexed so that
no two dynamic draws share an index ((day, person) pairs repeat for no
progression draw because a person is infected at most once per day). -/
structure Oracle where
  /-- draws of `random.sample` inside `_initialize_seeds` (index = number of
  picks still to make). -/
  seedDraw : ℕ → ℕ
  /-- uniform draw behind `np.random.choice(p=severity_probs)`. -/
  sevU : ℤ → ℕ → ℚ
  /-- `int(np.random.gamma(...))` for `mean_time_to_symptoms` (nonnegative). -/
  gammaSymptoms : ℤ → ℕ → ℕ
  /-- `int(np.random.gamma(...))` for the recovery delay of the drawn branch. -/
  gammaRecover : ℤ → ℕ → ℕ
  /-- `int(np.random.gamma(...))` for the symptom-to-hospital delay. -/
  gammaHospital : ℤ → ℕ → ℕ
  /-- `int(np.random.gamma(...))` for the hospital-to-critical delay. -/
  gammaCritical : ℤ → ℕ → ℕ
  /-- `int(np.random.gamma(...))` for the critical-to-death delay. -/
  gammaDeath : ℤ → ℕ → ℕ
  /-- `random.random()` for the fatality decision. -/
  dieU : ℤ → ℕ → ℚ
  /-- `random.random()` for occupation-network attendance. -/
  attendU : ℤ → ℕ → ℚ
  /-- `int(round(random.gauss(mean, stdev)))` of `_occupation_contact_count`. -/
  occCount : ℤ → ℕ → ℤ
  /-- draws of `random.sample` over occupation contacts. -/
  occPick : ℤ → ℕ → ℕ → ℕ
  /-- `int(np.random.negative_binomial(...))` for random-contact counts. -/
  negBin : ℤ → ℕ → ℕ
  /-- draws of `random.sample` over the random-contact pool. -/
  randPick : ℤ → ℕ → ℕ → ℕ
  /-- `random.random()` of `_transmission_step` (day, layer, source, target). -/
  transU : ℤ → ℕ → ℕ → ℕ → ℚ
  /-- `random.random()` for self-quarantine uptake. -/
  quarU : ℤ → ℕ → ℚ
  /-- `random.random()` for dose-1 vaccination uptake. -/
  vacU : ℤ → ℕ → ℚ

/-- Static run configuration: the four parameter bundles, the population
size and network membership tables built at construction, and the
exponential map (see the module docstring). -/
structure Config where
  dp : DiseaseParameters
  np : NetworkParameters
  ip : InterventionParameters
  vp : VaccineParameters
  size : ℕ
  households : ℕ → List ℕ
  occupations : ℕ → List ℕ
  expQ : ℚ → ℚ

/-- `random.sample(xs, n)`: `n` distinct members, here drawn Fisher–Yates
style so that every size-`n` subsequence is reachable for some draws. -/
def sampleList (draw : ℕ → ℕ) : ℕ → List ℕ → List ℕ
  | 0, _ => []
  | _ + 1, [] => []
  | n + 1, x :: xs =>
    let l := x :: xs
    let k := draw (n + 1) % l.length
    l.getD k x :: sampleList draw n (l.eraseIdx k)

/-- `_sample_time(mean, sd)`: `max(1, int(np.random.gamma(shape, scale)))`.
The gamma draw is nonnegative, so its `int` is a natural number supplied by
the oracle; `mean`/`sd` (clamped to `≥ 0.1` in the source, making the
degenerate early-return branch dead) only shape the distribution. -/
def sampleTime (_mean _sd : ℚ) (draw : ℕ) : ℕ := max 1 draw

/-- The four-way severity outcome of `np.random.choice`. -/
inductive Severity where
  | asymptomatic
  | mild
  | hospitalized
  | critical
deriving DecidableEq

/-- Categorical draw of `np.random.choice([...], p=probs)` by cumulative
inversion of a uniform `u`. -/
def chooseSeverity (probs : List ℚ) (u : ℚ) : Severity :=
  let p0 := probs.getD 0 0
  let p1 := probs.getD 1 0
  let p2 := probs.getD 2 0
  if u < p0 then .asymptomatic
  else if u < p0 + p1 then .mild
  else if u < p0 + p1 + p2 then .hospitalized
  else .critical

/-- `_severe_disease_reduction`: combined severe-outcome reduction from
vaccination and natural immunity. -/
def severeDiseaseReduction (p : Person) : ℚ :=
  let vaccine := min 1 (max 0 p.vaccineProtectionSevere)
  let natural := min 1 (max 0 p.severeProtectionLevel)
  max 0 (min 1 (1 - (1 - vaccine) * (1 - natural)))

/-- `_compute_susceptibility`: age-relative susceptibility scaled by the
complement of combined infection protection, clamped into `[0,1]`. -/
def computeSusceptibility (dp : DiseaseParameters) (p : Person) : ℚ :=
  let base := if p.ageGroup < dp.relativeSusceptibility.length
    then dp.relativeSusceptibility.getD p.ageGroup 0 else 1
  let infectionProtection := min 1 (max 0 p.infectionProtectionLevel)
  let vaccineProtection := min 1 (max 0 p.vaccineProtectionInfection)
  let combinedProtection := 1 - (1 - infectionProtection) * (1 - vaccineProtection)
  let susceptibility := base * max 0 (1 - combinedProtection)
  max 0 (min 1 susceptibility)

/-- The flag/timing reset at the top of `_set_disease_progression`
(reinfections start from a clean episode). -/
def resetProgression (p : Person) : Person :=
  { p with willBeAsymptomatic := false, willBeMild := false,
           willBeHospitalised := false, willBeCritical := false, willDie := false,
           timeToHospital := 0, timeToCritical := 0, timeToDeath := 0, timeToRecover := 0 }

/-- The renormalized four-way severity probability vector of
`_set_disease_progression`: hospitalised/critical fractions scaled down by
the severe-outcome reduction, renormalized, with the certain-asymptomatic
fallback when the total collapses to `≤ 0`. -/
def severityProbs (dp : DiseaseParameters) (p : Person) : List ℚ :=
  let severeReduction := severeDiseaseReduction p
  let probs0 := [dp.fractionAsymptomatic.getD p.ageGroup 0, dp.fractionMild.getD p.ageGroup 0,
                 dp.fractionHospitalised.getD p.ageGroup 0 * (1 - severeReduction),
                 dp.fractionCritical.getD p.ageGroup 0 * (1 - severeReduction)]
  let total := probs0.sum
  if total ≤ 0 then [1, 0, 0, 0] else probs0.map (· / total)

/-- The per-branch body of `_set_disease_progression`: set the branch's
flags and sample its stage durations (the agent already carries its
freshly sampled `time_to_symptoms`). -/
def applySeverity (dp : DiseaseParameters) (o : Oracle) (day : ℤ) (severity : Severity)
    (p : Person) : Person :=
  match severity with
  | .asymptomatic =>
    { p with willBeAsymptomatic := true,
             timeToRecover := sampleTime dp.meanAsymptomaticToRecover
               dp.sdAsymptomaticToRecover (o.gammaRecover day p.id) }
  | .mild =>
    let recoveryDelay := sampleTime dp.meanSymptomToRecoverMild
      dp.sdSymptomToRecoverMild (o.gammaRecover day p.id)
    { p with willBeMild := true, timeToRecover := p.timeToSymptoms + recoveryDelay }
  | .hospitalized =>
    let hospitalDelay := sampleTime dp.meanSymptomToHospital
      dp.sdSymptomToHospital (o.gammaHospital day p.id)
    let tth := p.timeToSymptoms + hospitalDelay
    let recoveryDelay := sampleTime dp.meanHospitalToRecover
      dp.sdHospitalToRecover (o.gammaRecover day p.id)
    { p with willBeHospitalised := true, timeToHospital := tth,
             timeToRecover := tth + recoveryDelay }
  | .critical =>
    let hospitalDelay := sampleTime dp.meanSymptomToHospital
      dp.sdSymptomToHospital (o.gammaHospital day p.id)
    let tth := p.timeToSymptoms + hospitalDelay
    let criticalDelay := sampleTime dp.meanHospitalToCritical
      dp.sdHospitalToCritical (o.gammaCritical day p.id)
    let ttc := tth + criticalDelay
    let recoveryDelay := sampleTime dp.meanCriticalToRecover
      dp.sdCriticalToRecover (o.gammaRecover day p.id)
    let p := { p with willBeHospitalised := true, willBeCritical := true,
                      timeToHospital := tth, timeToCritical := ttc,
                      timeToRecover := ttc + recoveryDelay }
    let fatalityRate := dp.fractionFatality.getD p.ageGroup 0 *
      (1 - severeDiseaseReduction p)
    let baselineCritical := max (dp.fractionCritical.getD p.ageGroup 0) (1 / 1000000)
    let fatalityGivenCritical := min 1 (fatalityRate / baselineCritical)
    if 0 < fatalityGivenCritical then
      if o.dieU day p.id < fatalityGivenCritical then
        let deathDelay := sampleTime dp.meanCriticalToDeath
          dp.sdCriticalToDeath (o.gammaDeath day p.id)
        { p with willDie := true, timeToDeath := ttc + deathDelay }
      else p
    else p

/-- The closing corrective rule of `_set_disease_progression`: "Ensure
recovery occurs after symptom onset". -/
def correctiveRecover (dp : DiseaseParameters) (p : Person) : Person :=
  if p.timeToRecover ≤ p.timeToSymptoms then
    { p with timeToRecover := p.timeToSymptoms + (max 1 (pyInt dp.meanSymptomToRecoverMild)).toNat }
  else p

/-- `_set_disease_progression`: reset the severity flags and timing fields,
draw the severity branch from the age-specific probabilities (severe
outcomes scaled down by the immunity reduction and the vector renormalized,
falling back to certain-asymptomatic when the total collapses), sample the
branch stage durations, then apply the corrective rule.

In the source the severity-flag reads inside the critical branch
(`person.age_group`, the second `severe_reduction` use) refer to the same
person object; the reduction is the value computed before the branch, which
the flag resets do not affect (`severeDiseaseReduction` only reads the two
protection levels). -/
def setDiseaseProgression (dp : DiseaseParameters) (o : Oracle) (day : ℤ) (p : Person) : Person :=
  let p := resetProgression p
  let severity := chooseSeverity (severityProbs dp p) (o.sevU day p.id)
  let tts := sampleTime dp.meanTimeToSymptoms dp.sdTimeToSymptoms (o.gammaSymptoms day p.id)
  let p := { p with timeToSymptoms := tts }
  correctiveRecover dp (applySeverity dp o day severity p)

/-- `_transition_to_recovered`: enter `RECOVERED_PROTECTED`, refresh the
immunity trackers and clear the episode flags. -/
def transitionToRecovered (dp : DiseaseParameters) (day : ℤ) (p : Person) : Person :=
  { p with diseaseState := .recoveredProtected
           recoveryDay := day
           daysInfected := 0
           reinfectionProtectionEnd := day + pyInt dp.reinfectionProtectionDays
           infectionProtectionLevel := dp.reinfectionProtectionLevel
           severeProtectionLevel := 1
           willBeAsymptomatic := false
           willBeMild := false
           willBeHospitalised := false
           willBeCritical := false
           willDie := false }

/-- The regime classification of `_update_post_recovery_immunity`: the
recovered sub-state and the infection-protection level as a function of
days since recovery (protected window, linear partial waning, waned). -/
def postRecoveryRegime (dp : DiseaseParameters) (day : ℤ) (p : Person) : Person :=
  let ds : ℚ := ((day - p.recoveryDay : ℤ) : ℚ)
  if ds ≤ dp.reinfectionProtectionDays then
    { p with diseaseState := .recoveredProtected,
             infectionProtectionLevel := dp.reinfectionProtectionLevel }
  else if ds ≤ dp.severeProtectionDays then
    let span := max 1 (dp.severeProtectionDays - dp.reinfectionProtectionDays)
    let waningFraction := (ds - dp.reinfectionProtectionDays) / span
    let waningFraction := min (max waningFraction 0) 1
    let residual := dp.reinfectionProtectionLevel * (1 - waningFraction)
    { p with diseaseState := .recoveredPartial,
             infectionProtectionLevel := max dp.partialImmunityFloor residual }
  else
    { p with diseaseState := .recoveredWaned,
             infectionProtectionLevel := max 0 (dp.partialImmunityFloor / 2) }

/-- The severe-protection decay of `_update_post_recovery_immunity`, read
off the already reclassified agent (whose `recovery_day` the regime update
left untouched). -/
def postRecoverySevere (dp : DiseaseParameters) (expQ : ℚ → ℚ) (day : ℤ)
    (p : Person) : Person :=
  let ds : ℚ := ((day - p.recoveryDay : ℤ) : ℚ)
  let severityDecay := expQ (-(dp.severeProtectionDecayRate * max ds 0 /
    max dp.severeProtectionDays 1))
  if p.diseaseState = .recoveredWaned then
    { p with severeProtectionLevel := max 0 (dp.partialImmunityFloor * severityDecay) }
  else
    { p with severeProtectionLevel := max dp.partialImmunityFloor (min 1 severityDecay) }

/-- `_update_post_recovery_immunity`: the three post-recovery immunity
regimes (protected / partial with linear waning / waned), then the
exponential decay of severe protection. -/
def updatePostRecoveryImmunity (dp : DiseaseParameters) (expQ : ℚ → ℚ) (day : ℤ)
    (p : Person) : Person :=
  if p.recoveryDay < 0 then p
  else postRecoverySevere dp expQ day (postRecoveryRegime dp day p)

/-- `_infect_person`: reset the episode fields, halve residual severe
protection, zero infection protection and draw a fresh progression. -/
def infectPerson (dp : DiseaseParameters) (o : Oracle) (day : ℤ) (p : Person) : Person :=
  let p := { p with diseaseState := .presymptomatic
                    infectionDay := day
                    daysInfected := 0
                    numInfections := p.numInfections + 1
                    recoveryDay := -1
                    reinfectionProtectionEnd := -1
                    infectionProtectionLevel := 0
                    severeProtectionLevel := max 0 (p.severeProtectionLevel * (1 / 2))
                    symptomOnsetDay := -1 }
  setDiseaseProgression dp o day p

/-- `_vaccine_decay`: exponential-like decay of vaccine protection. -/
def vaccineDecay (expQ : ℚ → ℚ) (daysSince : ℤ) (protectionDays decayRate : ℚ) : ℚ :=
  if daysSince ≤ 0 then 1
  else if protectionDays ≤ 0 then max 0 (expQ (-(decayRate * (daysSince : ℚ))))
  else max 0 (expQ (-(decayRate * ((daysSince : ℚ) / protectionDays))))

/-- `_update_vaccine_protection`: recompute the two vaccine-protection
fields from dose history, post-dose delays and decay. -/
def updateVaccineProtection (vp : VaccineParameters) (expQ : ℚ → ℚ) (day : ℤ)
    (p : Person) : Person :=
  if p.vaccinationDoses = 0 ∨ vp.vaccineType = .none then
    { p with vaccineProtectionInfection := 0, vaccineProtectionSevere := 0 }
  else
    let p := { p with vaccineKind := vp.vaccineType }
    if vp.vaccineType = .sterilizing then
      let referenceDay := if p.dose2Day ≥ 0 then p.dose2Day else p.dose1Day
      if referenceDay < 0 then
        { p with vaccineProtectionInfection := 0, vaccineProtectionSevere := 0 }
      else
        let requiredDelay := if p.dose2Day ≥ 0 ∧ referenceDay = p.dose2Day
          then vp.timeToProtectionDose2 else vp.timeToProtectionDose1
        let daysSince := day - referenceDay
        if daysSince < requiredDelay then
          { p with vaccineProtectionInfection := 0, vaccineProtectionSevere := 0 }
        else
          let decay := vaccineDecay expQ daysSince vp.sterilizingProtectionDays
            vp.sterilizingDecayRate
          let efficacy := min 1 vp.sterilizingEfficacyInfection
          let level := min 1 (efficacy * decay)
          { p with vaccineProtectionInfection := level, vaccineProtectionSevere := level }
    else
      let dose1Ready := p.dose1Day ≥ 0 ∧ day - p.dose1Day ≥ vp.timeToProtectionDose1
      let dose2Ready := p.dose2Day ≥ 0 ∧ day - p.dose2Day ≥ vp.timeToProtectionDose2
      let baseInf :=
        if dose2Ready then
          1 - (1 - vp.nonSterilizingEfficacyInfectionDose1) *
            (1 - vp.nonSterilizingEfficacyInfectionDose2)
        else if dose1Ready then vp.nonSterilizingEfficacyInfectionDose1 else 0
      let baseSevere :=
        if dose2Ready then
          1 - (1 - vp.nonSterilizingEfficacySevereDose1) *
            (1 - vp.nonSterilizingEfficacySevereDose2)
        else if dose1Ready then vp.nonSterilizingEfficacySevereDose1 else 0
      let referenceDay :=
        if dose2Ready then p.dose2Day else if dose1Ready then p.dose1Day else -1
      if referenceDay < 0 then
        { p with vaccineProtectionInfection := 0, vaccineProtectionSevere := 0 }
      else
        let daysSince := day - referenceDay
        let decay := vaccineDecay expQ daysSince vp.nonSterilizingProtectionDays
          vp.nonSterilizingDecayRate
        { p with vaccineProtectionInfection := min 1 (baseInf * decay),
                 vaccineProtectionSevere := min 1 (baseSevere * decay) }

/-- `_administer_vaccine_dose`: record the dose and immediately refresh
protection. -/
def administerVaccineDose (vp : VaccineParameters) (expQ : ℚ → ℚ) (day : ℤ)
    (p : Person) : Person :=
  let p :=
    if p.vaccinationDoses = 0 then { p with vaccinationDoses := 1, dose1Day := day }
    else if p.vaccinationDoses = 1 ∧ p.dose2Day < 0 then
      { p with vaccinationDoses := 2, dose2Day := day }
    else p
  let p := { p with vaccineKind := vp.vaccineType }
  updateVaccineProtection vp expQ day p

/-- The infectious states of `_transmission_step`. -/
def infectiousStates : List DiseaseState :=
  [.presymptomatic, .asymptomatic, .symptomaticMild, .symptomaticSevere]

/-- The symptomatic states that suppress occupation/random mixing
(`_get_contacts`). -/
def symptomaticStates : List DiseaseState :=
  [.symptomaticMild, .symptomaticSevere, .hospitalized, .critical]

/-- The six actively infected states (`active_states` of
`_update_disease_progression`, also the "infected" bucket of
`_record_daily_stats`). -/
def activeStates : List DiseaseState :=
  [.presymptomatic, .asymptomatic, .symptomaticMild, .symptomaticSevere,
   .hospitalized, .critical]

/-- The three recovered sub-states. -/
def recoveredStates : List DiseaseState :=
  [.recoveredProtected, .recoveredPartial, .recoveredWaned]

/-- The quarantine-release check at the top of
`_update_disease_progression`'s per-agent body. -/
def quarantineRelease (ip : InterventionParameters) (day : ℤ) (p : Person) : Person :=
  if p.quarantined ∧ p.quarantineStartDay ≥ 0 ∧
      day - p.quarantineStartDay ≥ ip.selfQuarantineDays then
    { p with quarantined := false, quarantineStartDay := -1 }
  else p

/-- The timed state machine of `_update_disease_progression` for an agent in
an actively infected state: increment `days_infected`, then transition when
the pre-sampled threshold is reached. -/
def progressActive (dp : DiseaseParameters) (day : ℤ) (p : Person) : Person :=
  let p : Person :=
    if p.diseaseState ∈ activeStates then { p with daysInfected := p.daysInfected + 1 }
    else p
  match p.diseaseState with
    | .presymptomatic =>
      if p.daysInfected ≥ p.timeToSymptoms then
        { p with symptomOnsetDay := day,
                 diseaseState :=
                   if p.willBeAsymptomatic then .asymptomatic
                   else if p.willBeHospitalised then .symptomaticSevere
                   else .symptomaticMild }
      else p
    | .asymptomatic =>
      if p.daysInfected ≥ p.timeToRecover then transitionToRecovered dp day p else p
    | .symptomaticMild =>
      if p.daysInfected ≥ p.timeToRecover then transitionToRecovered dp day p else p
    | .symptomaticSevere =>
      if p.willBeHospitalised ∧ p.daysInfected ≥ p.timeToHospital then
        { p with diseaseState := .hospitalized }
      else if ¬p.willBeHospitalised ∧ p.daysInfected ≥ p.timeToRecover then
        transitionToRecovered dp day p
      else p
    | .hospitalized =>
      if p.willBeCritical ∧ p.daysInfected ≥ p.timeToCritical then
        { p with diseaseState := .critical }
      else if p.daysInfected ≥ p.timeToRecover then transitionToRecovered dp day p
      else p
    | .critical =>
      if p.willDie ∧ p.daysInfected ≥ p.timeToDeath then { p with diseaseState := .dead }
      else if p.daysInfected ≥ p.timeToRecover then transitionToRecovered dp day p
      else p
    | _ => p

/-- One agent's daily pass of `_update_disease_progression`: quarantine
release, vaccine-protection refresh, then the timed state machine. -/
def progressPerson (cfg : Config) (_o : Oracle) (day : ℤ) (p : Person) : Person :=
  let p := quarantineRelease cfg.ip day p
  let p := updateVaccineProtection cfg.vp cfg.expQ day p
  if p.diseaseState = .susceptible ∨ p.diseaseState = .dead then p
  else if p.diseaseState ∈ recoveredStates then
    updatePostRecoveryImmunity cfg.dp cfg.expQ day p
  else progressActive cfg.dp day p

/-- `_update_disease_progression`: the per-agent pass over the whole
population (each agent only reads and writes its own fields). -/
def progressionStep (cfg : Config) (o : Oracle) (day : ℤ) (people : ℕ → Person) :
    ℕ → Person :=
  fun i => progressPerson cfg o day (people i)

/-- `_occupation_contact_count`: `int(round(random.gauss(mean, stdev)))`
clamped into `[0, available]`.  The age-dependent mean and the stdev only
parameterize the gaussian; its rounded value (any integer) is supplied by
the oracle draw. -/
def occupationContactCount (draw : ℤ) (available : ℕ) : ℕ :=
  if available = 0 then 0
  else (max 0 (min draw (available : ℤ))).toNat

/-- The three contact lists of `_get_contacts`, by network layer. -/
structure Contacts where
  household : List ℕ
  occupation : List ℕ
  random : List ℕ

/-- `_get_contacts`: household co-members always; occupation contacts when
attending (not quarantined, not symptomatic, attendance coin); random
contacts capped by the remaining daily-interaction capacity and sampled
from everyone not already contacted. -/
def getContacts (np : NetworkParameters) (o : Oracle) (day : ℤ) (size : ℕ)
    (households occupations : ℕ → List ℕ) (p : Person) : Contacts :=
  let household := (households p.householdId).filter (fun c => c ≠ p.id)
  let symptomatic := p.diseaseState ∈ symptomaticStates
  let occupation : List ℕ :=
    match p.occupationId with
    | Option.none => []
    | Option.some oid =>
      if ¬p.quarantined ∧ ¬symptomatic ∧ o.attendU day p.id < np.dailyFractionWork then
        let occContacts := (occupations oid).filter (fun c => c ≠ p.id)
        if occContacts = [] then []
        else
          let target := occupationContactCount (o.occCount day p.id) occContacts.length
          if target ≥ occContacts.length then occContacts
          else sampleList (o.occPick day p.id) target occContacts
      else []
  let random : List ℕ :=
    if ¬p.quarantined ∧ ¬symptomatic then
      let meanRandom : ℚ :=
        if p.ageGroup < np.meanRandomInteractions.length then
          np.meanRandomInteractions.getD p.ageGroup 0
        else 0
      -- `np.random.negative_binomial(overdispersion, p)`: the drawn count is
      -- oracle-supplied (its support is all of ℕ for any valid parameters).
      let nRandom := if 0 < meanRandom then o.negBin day p.id else 0
      let baseContacts := household.length + occupation.length
      let nRandom :=
        if p.dailyInteractionsTarget ≠ 0 then
          min nRandom (max 0 (pyRound (p.dailyInteractionsTarget - (baseContacts : ℚ)))).toNat
        else nRandom
      let available := (List.range size).filter
        (fun q => q ≠ p.id ∧ q ∉ household ∧ q ∉ occupation)
      if 0 < nRandom ∧ available ≠ [] then
        sampleList (o.randPick day p.id) (min nRandom available.length) available
      else []
    else []
  { household := household, occupation := occupation, random := random }

/-- Severity factor of the source's current sub-state (`_transmission_step`). -/
def severityFactor (dp : DiseaseParameters) (s : DiseaseState) : ℚ :=
  if s = .asymptomatic then dp.asymptomaticInfectiousFactor
  else if s = .symptomaticMild then dp.mildInfectiousFactor
  else dp.severeInfectiousFactor

/-- The per-contact base probability of `_transmission_step`:
`(infectious_rate/1000) · profile[min(days, len−1)] · individual_factor ·
severity_factor`. -/
def sourceBaseProb (dp : DiseaseParameters) (p : Person) : ℚ :=
  let baseTransmission := dp.infectiousRate / 1000
  let daysSinceInfection := max 0 p.daysInfected
  let profileIndex := min daysSinceInfection (p.infectiousProfile.length - 1)
  let profileFactor :=
    if p.infectiousProfile ≠ [] then p.infectiousProfile.getD profileIndex 1 else 1
  baseTransmission * profileFactor * p.individualInfectiousnessFactor *
    severityFactor dp p.diseaseState

/-- The transmission probability compared against the uniform draw:
`min(1, base_prob · multiplier · susceptibility)`. -/
def transmissionProbability (dp : DiseaseParameters) (baseProb multiplier : ℚ)
    (contact : Person) : ℚ :=
  min 1 (baseProb * multiplier * computeSusceptibility dp contact)

/-- A logged transmission event `(day, source_id, contact_id, layer)`
(the layer encoded 0 = household, 1 = occupation, 2 = random). -/
abbrev TransmissionEvent : Type := ℤ × ℕ × ℕ × ℕ

/-- The inner body of `_transmission_step` for one contact id: skip self,
skip infectious or dead contacts, skip zero susceptibility, then draw. -/
def processContact (dp : DiseaseParameters) (o : Oracle) (day : ℤ) (srcId : ℕ)
    (baseProb multiplier : ℚ) (layer : ℕ)
    (st : (ℕ → Person) × List TransmissionEvent) (cid : ℕ) :
    (ℕ → Person) × List TransmissionEvent :=
  if cid = srcId then st
  else
    let contact := st.1 cid
    if contact.diseaseState ∈ infectiousStates ∨ contact.diseaseState = .dead then st
    else
      let susceptibility := computeSusceptibility dp contact
      if susceptibility ≤ 0 then st
      else
        let prob := transmissionProbability dp baseProb multiplier contact
        if o.transU day layer srcId cid < prob then
          (Function.update st.1 cid (infectPerson dp o day contact),
           st.2 ++ [(day, srcId, cid, layer)])
        else st

/-- Processing of one source in `_transmission_step`: the generator
filtering `people.values()` is lazy, so each id is tested against the
*current* state when the iteration reaches it; contacts are processed
household, then occupation, then random (dict insertion order), with the
layer-specific `relative_transmission_*` multiplier. -/
def processSource (cfg : Config) (o : Oracle) (day : ℤ)
    (st : (ℕ → Person) × List TransmissionEvent) (i : ℕ) :
    (ℕ → Person) × List TransmissionEvent :=
  let src := st.1 i
  if src.diseaseState ∈ infectiousStates then
    let cs := getContacts cfg.np o day cfg.size cfg.households cfg.occupations src
    let baseProb := sourceBaseProb cfg.dp src
    let st := cs.household.foldl
      (processContact cfg.dp o day src.id baseProb cfg.np.relativeTransmissionHousehold 0) st
    let st := cs.occupation.foldl
      (processContact cfg.dp o day src.id baseProb cfg.np.relativeTransmissionOccupation 1) st
    cs.random.foldl
      (processContact cfg.dp o day src.id baseProb cfg.np.relativeTransmissionRandom 2) st
  else st

/-- `_transmission_step` over the whole population (ids in dict insertion
order `0..size-1`). -/
def transmissionStep (cfg : Config) (o : Oracle) (day : ℤ)
    (st : (ℕ → Person) × List TransmissionEvent) :
    (ℕ → Person) × List TransmissionEvent :=
  (List.range cfg.size).foldl (processSource cfg o day) st

/-- One agent's pass of `_intervention_step`: symptomatic agents
self-quarantine with the configured probability. -/
def quarantinePerson (ip : InterventionParameters) (o : Oracle) (day : ℤ)
    (p : Person) : Person :=
  if (p.diseaseState = .symptomaticMild ∨ p.diseaseState = .symptomaticSevere) ∧
      ¬p.quarantined ∧ o.quarU day p.id < ip.selfQuarantineFraction then
    { p with quarantined := true, quarantineStartDay := day }
  else p

/-- `_intervention_step`: a no-op unless `self_quarantine_fraction > 0`. -/
def interventionStep (cfg : Config) (o : Oracle) (day : ℤ) (people : ℕ → Person) :
    ℕ → Person :=
  if 0 < cfg.ip.selfQuarantineFraction then
    fun i => quarantinePerson cfg.ip o day (people i)
  else people

/-- The disease states eligible for vaccination (`_vaccination_step`). -/
def eligibleStates : List DiseaseState :=
  [.susceptible, .recoveredProtected, .recoveredPartial, .recoveredWaned]

/-- One agent's pass of `_vaccination_step`: probabilistic dose 1, then a
deterministic dose 2 once the inter-dose interval has elapsed. -/
def vaccinatePerson (vp : VaccineParameters) (expQ : ℚ → ℚ) (o : Oracle) (day : ℤ)
    (p : Person) : Person :=
  if p.diseaseState ∉ eligibleStates then p
  else if ¬(p.ageGroup < vp.vaccinationRateByAge.length) then p
  else
    let dailyRate := max 0 (vp.vaccinationRateByAge.getD p.ageGroup 0)
    let dailyProb := min 1 dailyRate
    if p.vaccinationDoses = 0 then
      if o.vacU day p.id < dailyProb then administerVaccineDose vp expQ day p else p
    else if p.vaccinationDoses = 1 ∧ p.dose1Day ≥ 0 ∧ p.dose2Day < 0 then
      if day - p.dose1Day ≥ vp.doseIntervalDays then administerVaccineDose vp expQ day p
      else p
    else p

/-- `_vaccination_step`: returns immediately when `vaccine_type == "none"`. -/
def vaccinationStep (cfg : Config) (o : Oracle) (day : ℤ) (people : ℕ → Person) :
    ℕ → Person :=
  if cfg.vp.vaccineType = .none then people
  else fun i => vaccinatePerson cfg.vp cfg.expQ o day (people i)

/-- One row of `daily_stats` (`_record_daily_stats`). -/
structure DayRow where
  day : ℤ
  susceptible : ℕ
  infected : ℕ
  recovered : ℕ
  dead : ℕ
  hospitalized : ℕ
  critical : ℕ
  newInfections : ℕ
  newDeaths : ℕ
deriving DecidableEq

/-- Susceptible-bucket test of `_record_daily_stats`. -/
def isSusceptible (p : Person) : Bool := p.diseaseState = .susceptible

/-- Infected-bucket test of `_record_daily_stats` (the six active states). -/
def isInfected (p : Person) : Bool := p.diseaseState ∈ activeStates

/-- Recovered-bucket test of `_record_daily_stats`. -/
def isRecovered (p : Person) : Bool := p.diseaseState ∈ recoveredStates

/-- Dead-bucket test of `_record_daily_stats`. -/
def isDead (p : Person) : Bool := p.diseaseState = .dead

/-- The population snapshot in dict iteration order. -/
def snapshot (size : ℕ) (people : ℕ → Person) : List Person :=
  (List.range size).map people

/-- `_record_daily_stats`: count every agent into exactly one of the four
buckets (hospitalized/critical are sub-counts of the infected bucket), then
append the row.  The code appends the current counts *before* reading
`daily_stats[...][-1]`, so `prev_infected`/`prev_dead` are the values just
appended and the clamped deltas are 0 for every day except day 0. -/
def recordDailyStats (cfg : Config) (day : ℤ) (people : ℕ → Person)
    (rows : List DayRow) : List DayRow :=
  let snap := snapshot cfg.size people
  let susceptibleCount := snap.countP isSusceptible
  let infectedCount := snap.countP isInfected
  let recoveredCount := snap.countP isRecovered
  let deadCount := snap.countP isDead
  let hospitalizedCount := snap.countP (fun p => p.diseaseState = .hospitalized)
  let criticalCount := snap.countP (fun p => p.diseaseState = .critical)
  let prevInfected := infectedCount
  let prevDead := deadCount
  let newInfections := if day = 0 then infectedCount else infectedCount - prevInfected
  let newDeaths := if day = 0 then 0 else deadCount - prevDead
  rows ++ [{ day := day, susceptible := susceptibleCount, infected := infectedCount,
             recovered := recoveredCount, dead := deadCount,
             hospitalized := hospitalizedCount, critical := criticalCount,
             newInfections := newInfections, newDeaths := newDeaths }]

/-- Mutable simulation state threaded through the run loop. -/
structure SimState where
  people : ℕ → Person
  events : List TransmissionEvent
  rows : List DayRow

/-- `step`: disease progression, transmission, interventions, vaccination. -/
def stepDay (cfg : Config) (o : Oracle) (day : ℤ) (s : SimState) : SimState :=
  let people := progressionStep cfg o day s.people
  let tr := transmissionStep cfg o day (people, s.events)
  let people := interventionStep cfg o day tr.1
  let people := vaccinationStep cfg o day people
  { people := people, events := tr.2, rows := s.rows }

/-- The `susceptible_people` pool of `_initialize_seeds` (as ids). -/
def seedPool (cfg : Config) (people : ℕ → Person) : List ℕ :=
  ((snapshot cfg.size people).filter (fun p => p.diseaseState = .susceptible)).map
    (fun p => p.id)

/-- The per-seed body of `_initialize_seeds`: force the agent into
`PRESYMPTOMATIC` on day 0 and draw its progression. -/
def seedOne (cfg : Config) (o : Oracle) (pm : ℕ → Person) (pid : ℕ) : ℕ → Person :=
  let person := pm pid
  let person := { person with diseaseState := DiseaseState.presymptomatic,
                              infectionDay := 0, daysInfected := 0,
                              numInfections := person.numInfections + 1 }
  Function.update pm pid (setDiseaseProgression cfg.dp o 0 person)

/-- `_initialize_seeds`: sample `min(n_seeds, #susceptible)` susceptible
agents without replacement and force-infect them on day 0. -/
def initializeSeeds (cfg : Config) (o : Oracle) (nSeeds : ℕ) (people : ℕ → Person) :
    ℕ → Person :=
  let susceptibleIds := seedPool cfg people
  let n := min nSeeds susceptibleIds.length
  let seeds := sampleList o.seedDraw n susceptibleIds
  seeds.foldl (seedOne cfg o) people

/-- The daily loop of `run_simulation`: step, then record. -/
def simLoop (cfg : Config) (o : Oracle) : ℕ → ℤ → SimState → SimState
  | 0, _, s => s
  | n + 1, day, s =>
    simLoop cfg o n (day + 1)
      { people := (stepDay cfg o day s).people, events := (stepDay cfg o day s).events,
        rows := recordDailyStats cfg day (stepDay cfg o day s).people (stepDay cfg o day s).rows }

/-- `run_simulation(days, n_seeds)`: seed, then run the daily loop from
day 0 (the `verbose` printing has no effect on state). -/
def runSimulation (cfg : Config) (o : Oracle) (days nSeeds : ℕ)
    (people : ℕ → Person) : SimState :=
  simLoop cfg o days 0
    { people := initializeSeeds cfg o nSeeds people, events := [], rows := [] }

/-- Oracle for `Population._create_occupation_networks`: the four
`random.shuffle` calls (stage 0 = children, 1 = teens, 2 = adults,
3 = elderly) and the per-group `int(round(random.gauss(...)))` size draw of
`_draw_group_size`, indexed by the occupation id being formed. -/
structure OccOracle where
  shuffleDraw : ℕ → ℕ → ℕ
  sizeDraw : ℕ → ℤ

/-- `_draw_group_size`: the gaussian's rounded value (oracle-supplied; the
`base_size`/`stdev` only parameterize the distribution) clamped as in the
source: `max(min_size, min(max(min_size, sampled), remaining))`. -/
def drawGroupSize (minSize : ℕ) (draw : ℤ) (remaining : ℕ) : ℕ :=
  let sampled := max (minSize : ℤ) draw
  let sampled := min sampled (remaining : ℤ)
  (max (minSize : ℤ) sampled).toNat

/-- The `assign_group` closure of `_create_occupation_networks`: slice the
member list into groups, optionally recruit staff adults by popping from the
end of `remaining_adults`, assign the occupation id to every member and
record the member list.  Recursion is fuel-bounded (`fuel ≥ |members|`
suffices because every group drawn by the source call sites has size
`≥ minimum_size ≥ 2`). -/
def assignGroups (oc : OccOracle) (minSize : ℕ) (adultRatio : ℚ) :
    ℕ → List ℕ → (ℕ → Person) → List (List ℕ) → List ℕ → ℕ →
    (ℕ → Person) × List (List ℕ) × List ℕ × ℕ
  | _, [], people, occs, remainingAdults, occId => (people, occs, remainingAdults, occId)
  | 0, _, people, occs, remainingAdults, occId => (people, occs, remainingAdults, occId)
  | fuel + 1, m :: ms, people, occs, remainingAdults, occId =>
    let members := m :: ms
    let groupSize := drawGroupSize minSize (oc.sizeDraw occId) members.length
    let group := members.take groupSize
    let rest := members.drop groupSize
    let staffCount :=
      if 0 < adultRatio ∧ remainingAdults ≠ [] then
        (min (pyRound ((group.length : ℚ) * adultRatio)) (remainingAdults.length : ℤ)).toNat
      else 0
    let staff := remainingAdults.reverse.take staffCount
    let remainingAdults := remainingAdults.take (remainingAdults.length - staffCount)
    let fullGroup := group ++ staff
    let people := fullGroup.foldl
      (fun pm pid => Function.update pm pid { pm pid with occupationId := Option.some occId })
      people
    assignGroups oc minSize adultRatio fuel rest people (occs ++ [fullGroup])
      remainingAdults (occId + 1)

/-- `Population._create_occupation_networks`: partition by life stage,
shuffle each partition, then assign children's groups (with adult staff),
teen groups (half the staff ratio), the *remaining* adults to workplaces,
and finally elderly social groups (which pop adult caregivers from
`remaining_adults` — a list whose members were all just assigned to
workplaces). -/
def createOccupationNetworks (np : NetworkParameters) (oc : OccOracle) (size : ℕ)
    (people : ℕ → Person) : (ℕ → Person) × List (List ℕ) :=
  let children := (List.range size).filter (fun pid => (people pid).ageGroup = 0)
  let teens := (List.range size).filter (fun pid => (people pid).ageGroup = 1)
  let adults := (List.range size).filter
    (fun pid => 2 ≤ (people pid).ageGroup ∧ (people pid).ageGroup ≤ 5)
  let elderly := (List.range size).filter (fun pid => 6 ≤ (people pid).ageGroup)
  let children := sampleList (oc.shuffleDraw 0) children.length children
  let teens := sampleList (oc.shuffleDraw 1) teens.length teens
  let adults := sampleList (oc.shuffleDraw 2) adults.length adults
  let elderly := sampleList (oc.shuffleDraw 3) elderly.length elderly
  let remainingAdults := adults
  let r1 := assignGroups oc 5 np.childNetworkAdultsRatio (children.length + 1) children
    people [] remainingAdults 0
  let r2 := assignGroups oc 5 (np.childNetworkAdultsRatio / 2) (teens.length + 1) teens
    r1.1 r1.2.1 r1.2.2.1 r1.2.2.2
  let r3 := assignGroups oc 3 0 (r2.2.2.1.length + 1) r2.2.2.1
    r2.1 r2.2.1 r2.2.2.1 r2.2.2.2
  let r4 := assignGroups oc 2 np.elderlyNetworkAdultsRatio (elderly.length + 1) elderly
    r3.1 r3.2.1 r3.2.2.1 r3.2.2.2
  (r4.1, r4.2.1)

/-- Normalized infectiousness curve for the default disease parameters
(`_build_infectious_profile` evaluates a gamma density with shape 2 and
scale 2 over 15 days and divides by its maximum; the exact values are
transcendental, these are rational approximations — every entry lies in
`[0,1]` and the peak is 1, as the normalization guarantees). -/
def c5Profile : List ℚ :=
  [0.0008, 0.8247, 1, 0.9643, 0.8187, 0.6557, 0.5020, 0.3714, 0.2681, 0.1899,
   0.1324, 0.0912, 0.0621, 0.0419, 0.0280]

/-- A fresh 1000-agent population reachable from `Population` construction:
every agent in age band 6 (size-1 reference households are all elderly, and
the multinomial can put all 1000 counts in band 6), singleton households,
elderly social groups of two, with the per-agent fields that
`_initialize_individual_characteristics` sets (interaction target 10.2 for
band 6, lognormal factor 1, the shared profile copy). -/
def c5Person (i : ℕ) : Person :=
  { initPerson i 6 i with
      occupationId := Option.some (i / 2),
      infectiousProfile := c5Profile,
      dailyInteractionsTarget := 10.2 }

/-- Run configuration for the claim-C5 scenario: population 1000 and the
four default parameter bundles. -/
def c5Cfg : Config :=
  { dp := defaultDisease, np := defaultNetwork, ip := defaultIntervention,
    vp := defaultVaccine, size := 1000,
    households := fun h => [h],
    occupations := fun g => [2 * g, 2 * g + 1],
    expQ := fun _ => 1 }

/-- A fixed seed for the C5 scenario: seeds agents 0–4; agent 0 draws one
random contact, which the sampler resolves to agent 5, and the transmission
draw 0 succeeds (the probability is ≈ 0.029 > 0); every other draw produces
no contact and no further infection. -/
def c5Oracle : Oracle :=
  { seedDraw := fun _ => 0
    sevU := fun _ _ => 0
    gammaSymptoms := fun _ _ => 5
    gammaRecover := fun _ _ => 12
    gammaHospital := fun _ _ => 1
    gammaCritical := fun _ _ => 1
    gammaDeath := fun _ _ => 1
    dieU := fun _ _ => 1
    attendU := fun _ _ => 1
    occCount := fun _ _ => 0
    occPick := fun _ _ _ => 0
    negBin := fun _ pid => if pid = 0 then 1 else 0
    randPick := fun _ _ _ => 4
    transU := fun _ _ _ _ => 0
    quarU := fun _ _ => 1
    vacU := fun _ _ => 1 }

/-- Pointwise relation tying the transmission pass's evolving population to
the population it started from: every agent is either untouched or was
infected exactly once (from a non-infectious, non-dead state, becoming
`PRESYMPTOMATIC`). -/
def TransInv (dp : DiseaseParameters) (o : Oracle) (day : ℤ)
    (base cur : ℕ → Person) : Prop :=
  ∀ i, cur i = base i ∨
    ((base i).diseaseState ∉ infectiousStates ∧ (base i).diseaseState ≠ .dead ∧
     cur i = infectPerson dp o day (base i))

/-- Parameter-validity assumptions for the protection-bound claims: each
named parameter is a probability/fraction or a nonnegative rate, as the
parameter documentation prescribes (all defaults satisfy this). -/
def DiseaseParamsValid (dp : DiseaseParameters) : Prop :=
  0 ≤ dp.infectiousRate ∧ 0 ≤ dp.asymptomaticInfectiousFactor ∧
  0 ≤ dp.mildInfectiousFactor ∧ 0 ≤ dp.severeInfectiousFactor ∧
  0 ≤ dp.reinfectionProtectionLevel ∧ dp.reinfectionProtectionLevel ≤ 1 ∧
  0 ≤ dp.partialImmunityFloor ∧ dp.partialImmunityFloor ≤ 1 ∧
  0 ≤ dp.severeProtectionDecayRate

/-- Validity of the vaccine parameters: efficacies are probabilities and
decay rates are nonnegative. -/
def VaccineParamsValid (vp : VaccineParameters) : Prop :=
  0 ≤ vp.sterilizingEfficacyInfection ∧ 0 ≤ vp.sterilizingDecayRate ∧
  0 ≤ vp.nonSterilizingEfficacyInfectionDose1 ∧ vp.nonSterilizingEfficacyInfectionDose1 ≤ 1 ∧
  0 ≤ vp.nonSterilizingEfficacyInfectionDose2 ∧ vp.nonSterilizingEfficacyInfectionDose2 ≤ 1 ∧
  0 ≤ vp.nonSterilizingEfficacySevereDose1 ∧ vp.nonSterilizingEfficacySevereDose1 ≤ 1 ∧
  0 ≤ vp.nonSterilizingEfficacySevereDose2 ∧ vp.nonSterilizingEfficacySevereDose2 ≤ 1 ∧
  0 ≤ vp.nonSterilizingDecayRate

/-- Validity of the network parameters used in transmission probabilities:
the three layer multipliers are nonnegative. -/
def NetworkParamsValid (np : NetworkParameters) : Prop :=
  0 ≤ np.relativeTransmissionHousehold ∧ 0 ≤ np.relativeTransmissionOccupation ∧
  0 ≤ np.relativeTransmissionRandom

/-- Admissibility of the rational stand-in for `math.exp` (claims about
protection bounds only use `exp` at nonpositive arguments, where the real
exponential lies in `[0,1]`). -/
def ExpValid (e : ℚ → ℚ) : Prop := ∀ x : ℚ, x ≤ 0 → 0 ≤ e x ∧ e x ≤ 1

/-- The per-agent bounds claim C4 asserts, plus the two infectiousness
fields that feed the transmission probability (the profile is normalized
into `[0,1]` by `_build_infectious_profile` and the lognormal individual
factor is positive at initialization). -/
def PersonBounded (p : Person) : Prop :=
  0 ≤ p.infectionProtectionLevel ∧ p.infectionProtectionLevel ≤ 1 ∧
  0 ≤ p.severeProtectionLevel ∧ p.severeProtectionLevel ≤ 1 ∧
  0 ≤ p.vaccineProtectionInfection ∧ p.vaccineProtectionInfection ≤ 1 ∧
  0 ≤ p.vaccineProtectionSevere ∧ p.vaccineProtectionSevere ≤ 1 ∧
  (∀ v ∈ p.infectiousProfile, 0 ≤ v ∧ v ≤ 1) ∧
  0 ≤ p.individualInfectiousnessFactor

/-- Vaccine-field zeroness tracked by claim C7. -/
def VacZero (p : Person) : Prop :=
  p.vaccineProtectionInfection = 0 ∧ p.vaccineProtectionSevere = 0 ∧
  p.vaccinationDoses = 0

/-- How many of the four severity-outcome flags of claim C2 are set. -/
def severityFlagCount (p : Person) : ℕ :=
  (if p.willBeAsymptomatic then 1 else 0) + (if p.willBeMild then 1 else 0) +
    (if p.willBeHospitalised then 1 else 0) + (if p.willBeCritical then 1 else 0)

/-- A fresh agent in age band 3 for the claim-C2 counterexample. -/
def c2Person : Person := initPerson 0 3 0

/-- Oracle whose severity draw lands in the critical branch for a fresh
age-band-3 agent (cumulative normalized probabilities ≈ 0.361, 0.928,
0.979; the draw 0.99 exceeds them all). -/
def c2Oracle : Oracle :=
  { c5Oracle with sevU := fun _ _ => 0.99 }

/-- A recovered agent 541 days past recovery (beyond the 540-day severe
protection window) for the claim-C8 counterexample. -/
def c8Person : Person :=
  { initPerson 0 3 0 with diseaseState := .recoveredWaned, recoveryDay := 0,
                          severeProtectionLevel := 0.15,
                          infectionProtectionLevel := 0.075 }

/-- Rational stand-in for `math.exp` in the claim-C8 counterexample: the
real value `exp(-0.25·541/540) ≈ 0.778` is some number in `(0,1)`; any such
value exhibits the violation, and `1/2` is used so the arithmetic is exact. -/
def c8Exp : ℚ → ℚ := fun _ => 1 / 2

/-- Minimal population for the claim-C6 counterexample: one working-age
adult (band 3) and three elderly agents (band 6). -/
def c6Person (i : ℕ) : Person :=
  if i = 0 then initPerson 0 3 0 else initPerson i 6 i

/-- Occupation-network oracle for the claim-C6 counterexample: shuffles
keep order (draw 0 picks the head each time) and the gaussian group-size
draws realize the base sizes (8 for the adult workplace, 3 for the elderly
group). -/
def c6OccOracle : OccOracle :=
  { shuffleDraw := fun _ _ => 0
    sizeDraw := fun g => if g = 0 then 8 else 3 }

/-- The claim-C5 run's seeded population with the seed sample resolved
(agents 0-4). -/
def seededClosed : ℕ → Person := [0, 1, 2, 3, 4].foldl (seedOne c5Cfg c5Oracle) c5Person

/-- The claim-C5 population after the day-0 disease-progression pass. -/
def pDay0 : ℕ → Person := progressionStep c5Cfg c5Oracle 0 seededClosed

/-- Agent 5 as infected by agent 0's day-0 random contact in the claim-C5
run. -/
def v5 : Person := infectPerson c5Cfg.dp c5Oracle 0 (pDay0 5)

/-- Unfolding equation of `simLoop` for one day. -/
theorem simLoop_succ (cfg : Config) (o : Oracle) (m : ℕ) (day : ℤ) (s : SimState) :
    simLoop cfg o (m + 1) day s =
      simLoop cfg o m (day + 1)
        { people := (stepDay cfg o day s).people, events := (stepDay cfg o day s).events,
          rows := recordDailyStats cfg day (stepDay cfg o day s).people
            (stepDay cfg o day s).rows } := rfl

/-- The daily step leaves the statistics table untouched (recording is a
separate phase of the loop body). -/
theorem stepDay_rows (cfg : Config) (o : Oracle) (day : ℤ) (s : SimState) :
    (stepDay cfg o day s).rows = s.rows := rfl

/-- Recording appends exactly one row. -/
theorem recordDailyStats_spec (cfg : Config) (day : ℤ) (people : ℕ → Person)
    (rows : List DayRow) : ∃ r, recordDailyStats cfg day people rows = rows ++ [r] :=
  ⟨_, rfl⟩

/-- The run loop only appends to the statistics table. -/
theorem simLoop_rows_prefix (cfg : Config) (o : Oracle) :
    ∀ (n : ℕ) (day : ℤ) (s : SimState),
      ∃ t, (simLoop cfg o n day s).rows = s.rows ++ t := by
  intro n
  induction n with
  | zero => intro day s; exact ⟨[], (List.append_nil _).symm⟩
  | succ m ih =>
    intro day s
    obtain ⟨t, ht⟩ := ih (day + 1)
      { people := (stepDay cfg o day s).people, events := (stepDay cfg o day s).events,
        rows := recordDailyStats cfg day (stepDay cfg o day s).people
          (stepDay cfg o day s).rows }
    obtain ⟨r, hr⟩ := recordDailyStats_spec cfg day (stepDay cfg o day s).people
      (stepDay cfg o day s).rows
    refine ⟨r :: t, ?_⟩
    rw [simLoop_succ, ht]
    rw [stepDay_rows] at hr
    simp [stepDay_rows, hr]

/-- The first recorded row of a run is the record taken after the full
day-0 step (progression, transmission, interventions, vaccination). -/
theorem runSimulation_rows_head (cfg : Config) (o : Oracle) (d nSeeds : ℕ)
    (people : ℕ → Person) :
    (runSimulation cfg o (d + 1) nSeeds people).rows.head? =
      (recordDailyStats cfg 0
        (stepDay cfg o 0 ⟨initializeSeeds cfg o nSeeds people, [], []⟩).people []).head? := by
  unfold runSimulation
  rw [simLoop_succ]
  simp only [zero_add]
  obtain ⟨t, ht⟩ := simLoop_rows_prefix cfg o d 1
    { people := (stepDay cfg o 0 ⟨initializeSeeds cfg o nSeeds people, [], []⟩).people,
      events := (stepDay cfg o 0 ⟨initializeSeeds cfg o nSeeds people, [], []⟩).events,
      rows := recordDailyStats cfg 0
        (stepDay cfg o 0 ⟨initializeSeeds cfg o nSeeds people, [], []⟩).people
        (stepDay cfg o 0 ⟨initializeSeeds cfg o nSeeds people, [], []⟩).rows }
  rw [ht]
  obtain ⟨r, hr⟩ := recordDailyStats_spec cfg 0
    (stepDay cfg o 0 ⟨initializeSeeds cfg o nSeeds people, [], []⟩).people []
  simp [stepDay_rows, hr]

/-- A `seedOne` fold leaves every agent outside the seed list unchanged. -/
theorem foldl_seedOne_noteq (cfg : Config) (o : Oracle) :
    ∀ (l : List ℕ) (pm : ℕ → Person) (i : ℕ), i ∉ l →
      l.foldl (seedOne cfg o) pm i = pm i := by
  intro l
  induction l with
  | nil => intro pm i _; rfl
  | cons a t ih =>
    intro pm i hi
    rw [List.mem_cons, not_or] at hi
    rw [List.foldl_cons, ih _ _ hi.2]
    simp only [seedOne]
    exact Function.update_noteq hi.1 _ _

/-- A non-infectious id is not a transmission source: processing it leaves
the state unchanged. -/
theorem processSource_skip (cfg : Config) (o : Oracle) (day : ℤ)
    (st : (ℕ → Person) × List TransmissionEvent) (i : ℕ)
    (h : (st.1 i).diseaseState ∉ infectiousStates) :
    processSource cfg o day st i = st := by
  simp only [processSource]
  rw [if_neg h]

/-- Folding the transmission pass over ids that are all non-infectious in
the current state changes nothing. -/
theorem foldl_processSource_skip (cfg : Config) (o : Oracle) (day : ℤ) :
    ∀ (l : List ℕ) (st : (ℕ → Person) × List TransmissionEvent),
      (∀ i ∈ l, (st.1 i).diseaseState ∉ infectiousStates) →
      l.foldl (processSource cfg o day) st = st := by
  intro l
  induction l with
  | nil => intro st _; rfl
  | cons a t ih =>
    intro st h
    rw [List.foldl_cons, processSource_skip cfg o day st a (h a (List.mem_cons_self a t))]
    exact ih st (fun i hi => h i (List.mem_cons_of_mem a hi))

/-- `_update_vaccine_protection` never changes the disease state. -/
theorem updateVaccineProtection_state (vp : VaccineParameters) (e : ℚ → ℚ) (d : ℤ)
    (p : Person) : (updateVaccineProtection vp e d p).diseaseState = p.diseaseState := by
  simp only [updateVaccineProtection]
  split_ifs <;> rfl

/-- The quarantine-release check never changes the disease state. -/
theorem quarantineRelease_state (ip : InterventionParameters) (day : ℤ) (p : Person) :
    (quarantineRelease ip day p).diseaseState = p.diseaseState := by
  simp only [quarantineRelease]
  split_ifs <;> rfl

/-- The daily progression pass leaves a susceptible agent susceptible (it
never infects anyone). -/
theorem progressPerson_state_susceptible (cfg : Config) (o : Oracle) (day : ℤ)
    (p : Person) (h : p.diseaseState = .susceptible) :
    (progressPerson cfg o day p).diseaseState = .susceptible := by
  have hs : (updateVaccineProtection cfg.vp cfg.expQ day
      (quarantineRelease cfg.ip day p)).diseaseState = DiseaseState.susceptible := by
    rw [updateVaccineProtection_state, quarantineRelease_state, h]
  simp only [progressPerson]
  rw [if_pos (Or.inl hs)]
  exact hs

set_option maxRecDepth 100000 in
/-- The concrete seed sample of the claim-C5 run: agents 0 through 4. -/
theorem c5_seeds_eval : sampleList c5Oracle.seedDraw
    (min 5 (seedPool c5Cfg c5Person).length) (seedPool c5Cfg c5Person) = [0, 1, 2, 3, 4] := by
  decide

/-- The claim-C5 seeded population in closed form. -/
theorem c5_seeded_eq : initializeSeeds c5Cfg c5Oracle 5 c5Person = seededClosed := by
  simp only [initializeSeeds]
  rw [c5_seeds_eval]
  rfl

set_option maxRecDepth 100000 in
/-- Splitting the id scan of the claim-C5 transmission pass after the first
six agents. -/
theorem c5_range_split : List.range 1000 = List.range 6 ++ List.range' 6 994 := by decide

set_option maxRecDepth 100000 in
/-- Processing the first six ids of the claim-C5 day-0 transmission pass:
source 0's single random contact infects agent 5; no other contact arises. -/
theorem c5_first_six : (List.range 6).foldl (processSource c5Cfg c5Oracle 0) (pDay0, []) =
    (Function.update pDay0 5 v5, [((0:ℤ), 0, 5, 2)]) := by rfl

/-- Every claim-C5 agent beyond the first six is still susceptible after
day-0 progression and the first six transmission sources. -/
theorem c5_tail_susceptible (i : ℕ) (h6 : 6 ≤ i) :
    (Function.update pDay0 5 v5 i).diseaseState = DiseaseState.susceptible := by
  rw [Function.update_noteq (by omega)]
  show (progressPerson c5Cfg c5Oracle 0 (seededClosed i)).diseaseState = _
  have hc : seededClosed i = c5Person i := by
    apply foldl_seedOne_noteq
    intro hmem
    simp only [List.mem_cons, List.not_mem_nil, or_false] at hmem
    omega
  rw [hc]
  exact progressPerson_state_susceptible _ _ _ _ rfl

set_option maxRecDepth 100000 in
/-- The whole claim-C5 day-0 transmission pass: exactly one new infection
(agent 0 infects agent 5 through the random layer). -/
theorem c5_transmission : transmissionStep c5Cfg c5Oracle 0 (pDay0, []) =
    (Function.update pDay0 5 v5, [((0:ℤ), 0, 5, 2)]) := by
  show (List.range c5Cfg.size).foldl (processSource c5Cfg c5Oracle 0) (pDay0, []) = _
  have hsz : c5Cfg.size = 1000 := rfl
  rw [hsz, c5_range_split, List.foldl_append, c5_first_six]
  apply foldl_processSource_skip
  intro i hi
  have h6 : 6 ≤ i := by
    rw [List.mem_range'] at hi
    obtain ⟨j, _, rfl⟩ := hi
    omega
  rw [c5_tail_susceptible i h6]
  decide

/-- `step` unfolded to its four phases. -/
theorem stepDay_people (cfg : Config) (o : Oracle) (day : ℤ) (s : SimState) :
    (stepDay cfg o day s).people =
      vaccinationStep cfg o day (interventionStep cfg o day
        (transmissionStep cfg o day
          (progressionStep cfg o day s.people, s.events)).1) := rfl

set_option maxRecDepth 100000 in
/-- The claim-C5 population at the end of day 0. -/
theorem c5_day0_people :
    (stepDay c5Cfg c5Oracle 0 ⟨initializeSeeds c5Cfg c5Oracle 5 c5Person, [], []⟩).people =
      Function.update pDay0 5 v5 := by
  rw [stepDay_people]
  show vaccinationStep c5Cfg c5Oracle 0 (interventionStep c5Cfg c5Oracle 0
    (transmissionStep c5Cfg c5Oracle 0
      (progressionStep c5Cfg c5Oracle 0 (initializeSeeds c5Cfg c5Oracle 5 c5Person), [])).1) = _
  rw [c5_seeded_eq]
  show vaccinationStep c5Cfg c5Oracle 0 (interventionStep c5Cfg c5Oracle 0
    (transmissionStep c5Cfg c5Oracle 0 (pDay0, [])).1) = _
  rw [c5_transmission]
  rfl

set_option maxRecDepth 100000 in
/-- The first six claim-C5 agents (the five seeds and agent 5) are all in
infected states at the end of day 0. -/
theorem c5_count_first : (List.range 6).countP
    (fun i => isInfected (Function.update pDay0 5 v5 i)) = 6 := by decide

set_option maxRecDepth 100000 in
/-- The claim-C5 day-0 infected count is exactly 6. -/
theorem c5_infected_count :
    (snapshot c5Cfg.size (Function.update pDay0 5 v5)).countP isInfected = 6 := by
  show ((List.range c5Cfg.size).map _).countP _ = 6
  have hsz : c5Cfg.size = 1000 := rfl
  rw [hsz, List.countP_map, c5_range_split, List.countP_append]
  have h2 : (List.range' 6 994).countP
      (isInfected ∘ Function.update pDay0 5 v5) = 0 := by
    rw [List.countP_eq_zero]
    intro i hi
    have h6 : 6 ≤ i := by
      rw [List.mem_range'] at hi
      obtain ⟨j, _, rfl⟩ := hi
      omega
    simp only [Function.comp_apply, isInfected, c5_tail_susceptible i h6]
    decide
  have h1 : (List.range 6).countP (isInfected ∘ Function.update pDay0 5 v5) = 6 := by
    have := c5_count_first
    simpa [Function.comp] using this
  omega

set_option maxRecDepth 100000 in
/-- Claim C5 is false as stated: in a run with population 1000, days = 30,
n_seeds = 5, the default parameter bundles and the fixed seed `c5Oracle`
(with the documented rational stand-ins for the transcendental
infectiousness curve), the infected count recorded for day 0 is 6, not 5:
the statistics are recorded only after the complete day-0 step, whose
transmission phase infects agent 5 before recording, even though exactly 5
seeds were force-infected before the loop. -/
theorem C5_counterexample :
    ((runSimulation c5Cfg c5Oracle 30 5 c5Person).rows.head?.map (fun r => r.infected)) =
      some 6 ∧
    ((runSimulation c5Cfg c5Oracle 30 5 c5Person).rows.head?.map (fun r => r.infected)) ≠
      some 5 := by
  have h30 : (30 : ℕ) = 29 + 1 := rfl
  rw [h30, runSimulation_rows_head c5Cfg c5Oracle 29 5 c5Person, c5_day0_people]
  simp only [recordDailyStats, List.nil_append, List.head?_cons, Option.map_some]
  rw [c5_infected_count]
  exact ⟨rfl, by simp⟩

set_option maxHeartbeats 1000000 in
/-- Stage-duration ordering of one progression draw, over an agent whose
episode fields were just reset: all durations set on the drawn branch are
at least 1 and causally ordered, and after the corrective rule recovery is
strictly later than symptom onset. -/
theorem progression_branch_ordering (dp : DiseaseParameters) (o : Oracle) (day : ℤ)
    (sev : Severity) (q : Person)
    (hA : q.willBeAsymptomatic = false) (hM : q.willBeMild = false)
    (hH : q.willBeHospitalised = false) (hC : q.willBeCritical = false)
    (hD : q.willDie = false) (hts : 1 ≤ q.timeToSymptoms) :
    1 ≤ (correctiveRecover dp (applySeverity dp o day sev q)).timeToSymptoms ∧
    1 ≤ (correctiveRecover dp (applySeverity dp o day sev q)).timeToRecover ∧
    (correctiveRecover dp (applySeverity dp o day sev q)).timeToSymptoms <
      (correctiveRecover dp (applySeverity dp o day sev q)).timeToRecover ∧
    ((correctiveRecover dp (applySeverity dp o day sev q)).willBeHospitalised = true →
      (correctiveRecover dp (applySeverity dp o day sev q)).timeToSymptoms ≤
        (correctiveRecover dp (applySeverity dp o day sev q)).timeToHospital ∧
      1 ≤ (correctiveRecover dp (applySeverity dp o day sev q)).timeToHospital ∧
      (correctiveRecover dp (applySeverity dp o day sev q)).timeToHospital ≤
        (correctiveRecover dp (applySeverity dp o day sev q)).timeToRecover) ∧
    ((correctiveRecover dp (applySeverity dp o day sev q)).willBeCritical = true →
      (correctiveRecover dp (applySeverity dp o day sev q)).timeToHospital ≤
        (correctiveRecover dp (applySeverity dp o day sev q)).timeToCritical ∧
      (correctiveRecover dp (applySeverity dp o day sev q)).timeToCritical ≤
        (correctiveRecover dp (applySeverity dp o day sev q)).timeToRecover) ∧
    ((correctiveRecover dp (applySeverity dp o day sev q)).willDie = true →
      (correctiveRecover dp (applySeverity dp o day sev q)).willBeCritical = true ∧
      (correctiveRecover dp (applySeverity dp o day sev q)).timeToCritical ≤
        (correctiveRecover dp (applySeverity dp o day sev q)).timeToDeath ∧
      1 ≤ (correctiveRecover dp (applySeverity dp o day sev q)).timeToDeath) := by
  cases sev <;>
    simp only [applySeverity, correctiveRecover, sampleTime] <;>
    (try simp [hA, hM, hH, hC, hD]) <;>
    (try split_ifs) <;>
    (try simp_all) <;>
    omega

set_option maxHeartbeats 1000000 in
/-- Flag pattern of one progression draw over a freshly reset agent: the
drawn branch determines the flags exactly (the critical branch sets both
the hospitalised and the critical flag). -/
theorem progression_branch_flags (dp : DiseaseParameters) (o : Oracle) (day : ℤ)
    (sev : Severity) (q : Person)
    (hA : q.willBeAsymptomatic = false) (hM : q.willBeMild = false)
    (hH : q.willBeHospitalised = false) (hC : q.willBeCritical = false) :
    ((correctiveRecover dp (applySeverity dp o day sev q)).willBeAsymptomatic = true →
      (correctiveRecover dp (applySeverity dp o day sev q)).willBeMild = false ∧
      (correctiveRecover dp (applySeverity dp o day sev q)).willBeHospitalised = false ∧
      (correctiveRecover dp (applySeverity dp o day sev q)).willBeCritical = false) ∧
    ((correctiveRecover dp (applySeverity dp o day sev q)).willBeMild = true →
      (correctiveRecover dp (applySeverity dp o day sev q)).willBeAsymptomatic = false ∧
      (correctiveRecover dp (applySeverity dp o day sev q)).willBeHospitalised = false ∧
      (correctiveRecover dp (applySeverity dp o day sev q)).willBeCritical = false) ∧
    ((correctiveRecover dp (applySeverity dp o day sev q)).willBeHospitalised = true →
      (correctiveRecover dp (applySeverity dp o day sev q)).willBeAsymptomatic = false ∧
      (correctiveRecover dp (applySeverity dp o day sev q)).willBeMild = false) ∧
    ((correctiveRecover dp (applySeverity dp o day sev q)).willBeCritical = true →
      (correctiveRecover dp (applySeverity dp o day sev q)).willBeHospitalised = true) := by
  cases sev <;>
    simp only [applySeverity, correctiveRecover, sampleTime] <;>
    (try simp [hA, hM, hH, hC]) <;>
    (try split_ifs) <;>
    (try simp_all)

/-- Claim C3: every outcome of `_set_disease_progression` yields stage
durations that are ≥ 1 and causally ordered on the drawn branch
(symptoms ≤ hospital ≤ critical ≤ death and ≤ recovery), and after the
final corrective rule `time_to_recover > time_to_symptoms` holds strictly. -/
theorem C3_progression_ordering (dp : DiseaseParameters) (o : Oracle) (day : ℤ)
    (p : Person) :
    1 ≤ (setDiseaseProgression dp o day p).timeToSymptoms ∧
    1 ≤ (setDiseaseProgression dp o day p).timeToRecover ∧
    (setDiseaseProgression dp o day p).timeToSymptoms <
      (setDiseaseProgression dp o day p).timeToRecover ∧
    ((setDiseaseProgression dp o day p).willBeHospitalised = true →
      (setDiseaseProgression dp o day p).timeToSymptoms ≤
        (setDiseaseProgression dp o day p).timeToHospital ∧
      1 ≤ (setDiseaseProgression dp o day p).timeToHospital ∧
      (setDiseaseProgression dp o day p).timeToHospital ≤
        (setDiseaseProgression dp o day p).timeToRecover) ∧
    ((setDiseaseProgression dp o day p).willBeCritical = true →
      (setDiseaseProgression dp o day p).timeToHospital ≤
        (setDiseaseProgression dp o day p).timeToCritical ∧
      (setDiseaseProgression dp o day p).timeToCritical ≤
        (setDiseaseProgression dp o day p).timeToRecover) ∧
    ((setDiseaseProgression dp o day p).willDie = true →
      (setDiseaseProgression dp o day p).willBeCritical = true ∧
      (setDiseaseProgression dp o day p).timeToCritical ≤
        (setDiseaseProgression dp o day p).timeToDeath ∧
      1 ≤ (setDiseaseProgression dp o day p).timeToDeath) := by
  simp only [setDiseaseProgression]
  exact progression_branch_ordering dp o day _ _ rfl rfl rfl rfl rfl
    (by simp [sampleTime])

/-- Claim C2, counterexample to the claim as stated: for a fresh age-band-3
agent under the default disease parameters and a severity draw of 0.99
(landing in the critical branch), the draw leaves TWO of the four outcome
flags set — `will_be_hospitalised` and `will_be_critical` — so "at most one
of the four flags is true after the draw" is false. -/
theorem C2_counterexample :
    severityFlagCount (setDiseaseProgression defaultDisease c2Oracle 0 c2Person) = 2 ∧
    ¬ severityFlagCount (setDiseaseProgression defaultDisease c2Oracle 0 c2Person) ≤ 1 := by
  decide

/-- Claim C2 as amended: after any outcome of the severity draw the flags
follow the drawn branch exactly — at most one of
{asymptomatic, mild, critical} is set, an asymptomatic or mild draw
excludes the hospitalised flag, and the critical flag always comes together
with the hospitalised flag (so the critical branch sets two of the four
flags named by the claim). -/
theorem C2_amended_flags (dp : DiseaseParameters) (o : Oracle) (day : ℤ) (p : Person) :
    ((setDiseaseProgression dp o day p).willBeAsymptomatic = true →
      (setDiseaseProgression dp o day p).willBeMild = false ∧
      (setDiseaseProgression dp o day p).willBeHospitalised = false ∧
      (setDiseaseProgression dp o day p).willBeCritical = false) ∧
    ((setDiseaseProgression dp o day p).willBeMild = true →
      (setDiseaseProgression dp o day p).willBeAsymptomatic = false ∧
      (setDiseaseProgression dp o day p).willBeHospitalised = false ∧
      (setDiseaseProgression dp o day p).willBeCritical = false) ∧
    ((setDiseaseProgression dp o day p).willBeHospitalised = true →
      (setDiseaseProgression dp o day p).willBeAsymptomatic = false ∧
      (setDiseaseProgression dp o day p).willBeMild = false) ∧
    ((setDiseaseProgression dp o day p).willBeCritical = true →
      (setDiseaseProgression dp o day p).willBeHospitalised = true) := by
  simp only [setDiseaseProgression]
  exact progression_branch_flags dp o day _ _ rfl rfl rfl rfl

/-- Claim C8, counterexample to the claim as stated: a recovered agent 541
days past recovery (beyond the 540-day window) under the default disease
parameters is in the waned regime, where the code sets severe protection to
`max(0, partial_immunity_floor · exp(...))` — a value strictly BELOW the
partial-immunity floor (the exponential factor is < 1; the admissible
rational stand-in 1/2 for `exp(-0.25·541/540) ≈ 0.778` exhibits it), so
"severe protection never falls below the partial-immunity floor" is false. -/
theorem C8_counterexample :
    (updatePostRecoveryImmunity defaultDisease c8Exp 541 c8Person).diseaseState =
      DiseaseState.recoveredWaned ∧
    (updatePostRecoveryImmunity defaultDisease c8Exp 541 c8Person).severeProtectionLevel <
      defaultDisease.partialImmunityFloor := by
  decide

/-- The regime classification leaves `recovery_day` untouched. -/
theorem postRecoveryRegime_rec (dp : DiseaseParameters) (day : ℤ) (p : Person) :
    (postRecoveryRegime dp day p).recoveryDay = p.recoveryDay := by
  simp only [postRecoveryRegime]
  split_ifs <;> rfl

/-- Claim C8 as amended: on recovery the code sets infection protection to
the configured ceiling and severe protection to 1.0; within the first
window the agent is `RECOVERED_PROTECTED` at the ceiling with severe
protection at or above the floor; within the second window the agent is
`RECOVERED_PARTIAL` with infection protection between the floor and the
ceiling (linear waning) and severe protection at or above the floor; beyond
the second window the agent is `RECOVERED_WANED` with infection protection
fixed at half the floor, while severe protection equals
`max(0, floor · exp(−rate·days/window))` — exponential decay that drops
BELOW the partial-immunity floor (this is the only part the counterexample
forces to change: the claim said severe protection never falls below the
floor). -/
theorem C8_amended (dp : DiseaseParameters) (e : ℚ → ℚ) (day : ℤ) (p : Person)
    (hfloor0 : 0 ≤ dp.partialImmunityFloor) (hceil0 : 0 ≤ dp.reinfectionProtectionLevel)
    (hwin : dp.reinfectionProtectionDays ≤ dp.severeProtectionDays)
    (hrec : 0 ≤ p.recoveryDay) :
    (∀ (d : ℤ) (q : Person),
      (transitionToRecovered dp d q).diseaseState = DiseaseState.recoveredProtected ∧
      (transitionToRecovered dp d q).infectionProtectionLevel = dp.reinfectionProtectionLevel ∧
      (transitionToRecovered dp d q).severeProtectionLevel = 1) ∧
    (((day - p.recoveryDay : ℤ) : ℚ) ≤ dp.reinfectionProtectionDays →
      (updatePostRecoveryImmunity dp e day p).diseaseState = DiseaseState.recoveredProtected ∧
      (updatePostRecoveryImmunity dp e day p).infectionProtectionLevel =
        dp.reinfectionProtectionLevel ∧
      dp.partialImmunityFloor ≤ (updatePostRecoveryImmunity dp e day p).severeProtectionLevel) ∧
    (dp.reinfectionProtectionDays < ((day - p.recoveryDay : ℤ) : ℚ) →
     ((day - p.recoveryDay : ℤ) : ℚ) ≤ dp.severeProtectionDays →
      (updatePostRecoveryImmunity dp e day p).diseaseState = DiseaseState.recoveredPartial ∧
      dp.partialImmunityFloor ≤
        (updatePostRecoveryImmunity dp e day p).infectionProtectionLevel ∧
      (updatePostRecoveryImmunity dp e day p).infectionProtectionLevel ≤
        max dp.partialImmunityFloor dp.reinfectionProtectionLevel ∧
      dp.partialImmunityFloor ≤ (updatePostRecoveryImmunity dp e day p).severeProtectionLevel) ∧
    (dp.severeProtectionDays < ((day - p.recoveryDay : ℤ) : ℚ) →
      (updatePostRecoveryImmunity dp e day p).diseaseState = DiseaseState.recoveredWaned ∧
      (updatePostRecoveryImmunity dp e day p).infectionProtectionLevel =
        dp.partialImmunityFloor / 2 ∧
      (updatePostRecoveryImmunity dp e day p).severeProtectionLevel =
        max 0 (dp.partialImmunityFloor *
          e (-(dp.severeProtectionDecayRate * max (((day - p.recoveryDay : ℤ) : ℚ)) 0 /
               max dp.severeProtectionDays 1)))) := by
  have hnneg : ¬ p.recoveryDay < 0 := not_lt.mpr hrec
  refine ⟨fun d q => by simp [transitionToRecovered], ?_, ?_, ?_⟩ <;>
    simp only [updatePostRecoveryImmunity, if_neg hnneg]
  · intro h1
    have hreg : postRecoveryRegime dp day p =
        { p with diseaseState := .recoveredProtected,
                 infectionProtectionLevel := dp.reinfectionProtectionLevel } := by
      simp only [postRecoveryRegime]
      rw [if_pos h1]
    rw [hreg]
    simp only [postRecoverySevere]
    rw [if_neg (by simp)]
    exact ⟨rfl, rfl, le_max_left _ _⟩
  · intro h1 h2
    have hreg : postRecoveryRegime dp day p =
        { p with diseaseState := .recoveredPartial,
                 infectionProtectionLevel := max dp.partialImmunityFloor
                   (dp.reinfectionProtectionLevel *
                     (1 - min (max ((((day - p.recoveryDay : ℤ) : ℚ) -
                       dp.reinfectionProtectionDays) /
                       max 1 (dp.severeProtectionDays - dp.reinfectionProtectionDays)) 0) 1)) } := by
      simp only [postRecoveryRegime]
      rw [if_neg (not_le.mpr h1), if_pos h2]
    rw [hreg]
    simp only [postRecoverySevere]
    rw [if_neg (by simp)]
    refine ⟨rfl, le_max_left _ _, ?_, le_max_left _ _⟩
    show max dp.partialImmunityFloor _ ≤ max dp.partialImmunityFloor dp.reinfectionProtectionLevel
    apply max_le (le_max_left _ _)
    refine le_trans ?_ (le_max_right _ _)
    set w := min (max ((((day - p.recoveryDay : ℤ) : ℚ) - dp.reinfectionProtectionDays) /
      max 1 (dp.severeProtectionDays - dp.reinfectionProtectionDays)) 0) 1 with hw
    have hw0 : 0 ≤ w := by positivity
    nlinarith
  · intro h1
    have h0 : ¬ ((day - p.recoveryDay : ℤ) : ℚ) ≤ dp.reinfectionProtectionDays := by
      push_neg
      linarith
    have hreg : postRecoveryRegime dp day p =
        { p with diseaseState := .recoveredWaned,
                 infectionProtectionLevel := max 0 (dp.partialImmunityFloor / 2) } := by
      simp only [postRecoveryRegime]
      rw [if_neg h0, if_neg (not_le.mpr h1)]
    rw [hreg]
    simp only [postRecoverySevere]
    split_ifs with hww
    · exact ⟨rfl, max_eq_right (by positivity), rfl⟩
    · exact absurd trivial hww

/-- Witness for the amended claim C8 at the default disease parameters and
a concrete recovered agent. -/
theorem C8_amended_witness :
    (∀ (d : ℤ) (q : Person),
      (transitionToRecovered defaultDisease d q).diseaseState =
        DiseaseState.recoveredProtected ∧
      (transitionToRecovered defaultDisease d q).infectionProtectionLevel =
        defaultDisease.reinfectionProtectionLevel ∧
      (transitionToRecovered defaultDisease d q).severeProtectionLevel = 1) ∧
    (((10 - c8Person.recoveryDay : ℤ) : ℚ) ≤ defaultDisease.reinfectionProtectionDays →
      (updatePostRecoveryImmunity defaultDisease c8Exp 10 c8Person).diseaseState =
        DiseaseState.recoveredProtected ∧
      (updatePostRecoveryImmunity defaultDisease c8Exp 10 c8Person).infectionProtectionLevel =
        defaultDisease.reinfectionProtectionLevel ∧
      defaultDisease.partialImmunityFloor ≤
        (updatePostRecoveryImmunity defaultDisease c8Exp 10 c8Person).severeProtectionLevel) ∧
    (defaultDisease.reinfectionProtectionDays < ((10 - c8Person.recoveryDay : ℤ) : ℚ) →
     ((10 - c8Person.recoveryDay : ℤ) : ℚ) ≤ defaultDisease.severeProtectionDays →
      (updatePostRecoveryImmunity defaultDisease c8Exp 10 c8Person).diseaseState =
        DiseaseState.recoveredPartial ∧
      defaultDisease.partialImmunityFloor ≤
        (updatePostRecoveryImmunity defaultDisease c8Exp 10 c8Person).infectionProtectionLevel ∧
      (updatePostRecoveryImmunity defaultDisease c8Exp 10 c8Person).infectionProtectionLevel ≤
        max defaultDisease.partialImmunityFloor defaultDisease.reinfectionProtectionLevel ∧
      defaultDisease.partialImmunityFloor ≤
        (updatePostRecoveryImmunity defaultDisease c8Exp 10 c8Person).severeProtectionLevel) ∧
    (defaultDisease.severeProtectionDays < ((10 - c8Person.recoveryDay : ℤ) : ℚ) →
      (updatePostRecoveryImmunity defaultDisease c8Exp 10 c8Person).diseaseState =
        DiseaseState.recoveredWaned ∧
      (updatePostRecoveryImmunity defaultDisease c8Exp 10 c8Person).infectionProtectionLevel =
        defaultDisease.partialImmunityFloor / 2 ∧
      (updatePostRecoveryImmunity defaultDisease c8Exp 10 c8Person).severeProtectionLevel =
        max 0 (defaultDisease.partialImmunityFloor *
          c8Exp (-(defaultDisease.severeProtectionDecayRate *
            max (((10 - c8Person.recoveryDay : ℤ) : ℚ)) 0 /
               max defaultDisease.severeProtectionDays 1)))) :=
  C8_amended defaultDisease c8Exp 10 c8Person (by decide) (by decide) (by decide) (by decide)

/-- Claim C9: the simulation is a deterministic function of the
configuration, the random stream (the fixed seed) and the initial
population — equal inputs give identical daily statistics and state. -/
theorem C9_deterministic (cfg₁ cfg₂ : Config) (o₁ o₂ : Oracle) (d₁ d₂ n₁ n₂ : ℕ)
    (p₁ p₂ : ℕ → Person) (hcfg : cfg₁ = cfg₂) (ho : o₁ = o₂) (hd : d₁ = d₂)
    (hn : n₁ = n₂) (hp : p₁ = p₂) :
    runSimulation cfg₁ o₁ d₁ n₁ p₁ = runSimulation cfg₂ o₂ d₂ n₂ p₂ := by
  rw [hcfg, ho, hd, hn, hp]

/-- Witness for claim C9 at the concrete claim-C5 run. -/
theorem C9_deterministic_witness :
    runSimulation c5Cfg c5Oracle 3 5 c5Person = runSimulation c5Cfg c5Oracle 3 5 c5Person :=
  C9_deterministic c5Cfg c5Cfg c5Oracle c5Oracle 3 3 5 5 c5Person c5Person
    rfl rfl rfl rfl rfl


theorem applySeverity_state (dp : DiseaseParameters) (o : Oracle) (day : ℤ)
    (sev : Severity) (p : Person) :
    (applySeverity dp o day sev p).diseaseState = p.diseaseState := by
  cases sev <;> simp only [applySeverity] <;> split_ifs <;> rfl

theorem correctiveRecover_state (dp : DiseaseParameters) (p : Person) :
    (correctiveRecover dp p).diseaseState = p.diseaseState := by
  simp only [correctiveRecover]
  split_ifs <;> rfl

theorem setDiseaseProgression_state (dp : DiseaseParameters) (o : Oracle) (day : ℤ)
    (p : Person) : (setDiseaseProgression dp o day p).diseaseState = p.diseaseState := by
  simp only [setDiseaseProgression]
  rw [correctiveRecover_state, applySeverity_state]
  rfl

theorem infectPerson_state (dp : DiseaseParameters) (o : Oracle) (day : ℤ) (p : Person) :
    (infectPerson dp o day p).diseaseState = DiseaseState.presymptomatic := by
  simp only [infectPerson]
  rw [setDiseaseProgression_state]

theorem applySeverity_numInfections (dp : DiseaseParameters) (o : Oracle) (day : ℤ)
    (sev : Severity) (p : Person) :
    (applySeverity dp o day sev p).numInfections = p.numInfections := by
  cases sev <;> simp only [applySeverity] <;> split_ifs <;> rfl

theorem correctiveRecover_numInfections (dp : DiseaseParameters) (p : Person) :
    (correctiveRecover dp p).numInfections = p.numInfections := by
  simp only [correctiveRecover]
  split_ifs <;> rfl

theorem setDiseaseProgression_numInfections (dp : DiseaseParameters) (o : Oracle)
    (day : ℤ) (p : Person) :
    (setDiseaseProgression dp o day p).numInfections = p.numInfections := by
  simp only [setDiseaseProgression]
  rw [correctiveRecover_numInfections, applySeverity_numInfections]
  rfl

theorem infectPerson_numInfections (dp : DiseaseParameters) (o : Oracle) (day : ℤ)
    (p : Person) : (infectPerson dp o day p).numInfections = p.numInfections + 1 := by
  simp only [infectPerson]
  rw [setDiseaseProgression_numInfections]

theorem transInv_refl (dp : DiseaseParameters) (o : Oracle) (day : ℤ) (base : ℕ → Person) :
    TransInv dp o day base base := fun _ => Or.inl rfl

theorem processContact_inv (dp : DiseaseParameters) (o : Oracle) (day : ℤ)
    (srcId : ℕ) (baseProb mult : ℚ) (layer : ℕ) (base : ℕ → Person)
    (st : (ℕ → Person) × List TransmissionEvent) (cid : ℕ)
    (h : TransInv dp o day base st.1) :
    TransInv dp o day base (processContact dp o day srcId baseProb mult layer st cid).1 := by
  simp only [processContact]
  split_ifs with h1 h2 h3 h4
  · exact h
  · exact h
  · exact h
  · intro i
    by_cases hic : i = cid
    · subst hic
      rcases h i with h5 | ⟨hni, hnd, heq⟩
      · right
        rw [not_or] at h2
        rw [h5] at h2
        refine ⟨h2.1, h2.2, ?_⟩
        show Function.update st.1 i (infectPerson dp o day (st.1 i)) i = _
        rw [Function.update_same, h5]
      · exfalso
        apply h2
        left
        rw [heq, infectPerson_state]
        decide
    · rcases h i with h5 | ⟨hni, hnd, heq⟩
      · left
        show Function.update st.1 cid _ i = _
        rw [Function.update_noteq hic, h5]
      · right
        refine ⟨hni, hnd, ?_⟩
        show Function.update st.1 cid _ i = _
        rw [Function.update_noteq hic, heq]
  · exact h

theorem foldl_processContact_inv (dp : DiseaseParameters) (o : Oracle) (day : ℤ)
    (srcId : ℕ) (baseProb mult : ℚ) (layer : ℕ) (base : ℕ → Person) :
    ∀ (cids : List ℕ) (st : (ℕ → Person) × List TransmissionEvent),
      TransInv dp o day base st.1 →
      TransInv dp o day base
        (cids.foldl (processContact dp o day srcId baseProb mult layer) st).1 := by
  intro cids
  induction cids with
  | nil => intro st h; exact h
  | cons c t ih =>
    intro st h
    exact ih _ (processContact_inv dp o day srcId baseProb mult layer base st c h)

theorem processSource_inv (cfg : Config) (o : Oracle) (day : ℤ) (base : ℕ → Person)
    (st : (ℕ → Person) × List TransmissionEvent) (i : ℕ)
    (h : TransInv cfg.dp o day base st.1) :
    TransInv cfg.dp o day base (processSource cfg o day st i).1 := by
  simp only [processSource]
  split_ifs with h1
  · exact foldl_processContact_inv _ _ _ _ _ _ _ _ _ _
      (foldl_processContact_inv _ _ _ _ _ _ _ _ _ _
        (foldl_processContact_inv _ _ _ _ _ _ _ _ _ _ h))
  · exact h

theorem transmissionStep_inv (cfg : Config) (o : Oracle) (day : ℤ)
    (people : ℕ → Person) (events : List TransmissionEvent) :
    TransInv cfg.dp o day people (transmissionStep cfg o day (people, events)).1 := by
  simp only [transmissionStep]
  have h : ∀ (l : List ℕ) (st : (ℕ → Person) × List TransmissionEvent),
      TransInv cfg.dp o day people st.1 →
      TransInv cfg.dp o day people (l.foldl (processSource cfg o day) st).1 := by
    intro l
    induction l with
    | nil => intro st h; exact h
    | cons a t ih => intro st h; exact ih _ (processSource_inv cfg o day people st a h)
  exact h _ _ (transInv_refl cfg.dp o day people)

/-- C10: during a single day's transmission pass no agent is infected more
than once and no dead agent is infected: every agent is either untouched,
or was neither infectious nor dead at the start of the pass and is infected
exactly once, ending the day `PRESYMPTOMATIC` with `num_infections`
incremented by exactly one. -/
theorem C10_transmission_once (cfg : Config) (o : Oracle) (day : ℤ)
    (people : ℕ → Person) (events : List TransmissionEvent) (i : ℕ) :
    ((people i).diseaseState = .dead →
      (transmissionStep cfg o day (people, events)).1 i = people i) ∧
    ((transmissionStep cfg o day (people, events)).1 i).numInfections ≤
      (people i).numInfections + 1 ∧
    ((transmissionStep cfg o day (people, events)).1 i ≠ people i →
      (people i).diseaseState ∉ infectiousStates ∧
      ((transmissionStep cfg o day (people, events)).1 i).diseaseState =
        .presymptomatic ∧
      ((transmissionStep cfg o day (people, events)).1 i).numInfections =
        (people i).numInfections + 1) := by
  have h := transmissionStep_inv cfg o day people events i
  rcases h with h | ⟨hni, hnd, heq⟩
  · exact ⟨fun _ => h, by rw [h]; omega, fun hne => absurd h hne⟩
  · refine ⟨fun hd => absurd hd hnd, ?_, fun _ => ⟨hni, ?_, ?_⟩⟩
    · rw [heq, infectPerson_numInfections]
    · rw [heq, infectPerson_state]
    · rw [heq, infectPerson_numInfections]


def vacFields (p : Person) : ℚ × ℚ × ℕ :=
  (p.vaccineProtectionInfection, p.vaccineProtectionSevere, p.vaccinationDoses)

theorem quarantineRelease_vac (ip : InterventionParameters) (day : ℤ) (p : Person) :
    vacFields (quarantineRelease ip day p) = vacFields p := by
  simp only [quarantineRelease]
  split_ifs <;> rfl

theorem updateVaccineProtection_none (vp : VaccineParameters) (e : ℚ → ℚ) (day : ℤ)
    (p : Person) (h : vp.vaccineType = .none) :
    vacFields (updateVaccineProtection vp e day p) = (0, 0, p.vaccinationDoses) := by
  simp only [updateVaccineProtection]
  rw [if_pos (Or.inr h)]
  rfl

theorem postRecoveryRegime_vac (dp : DiseaseParameters) (day : ℤ) (p : Person) :
    vacFields (postRecoveryRegime dp day p) = vacFields p := by
  simp only [postRecoveryRegime]
  split_ifs <;> rfl

theorem postRecoverySevere_vac (dp : DiseaseParameters) (e : ℚ → ℚ) (day : ℤ)
    (p : Person) : vacFields (postRecoverySevere dp e day p) = vacFields p := by
  simp only [postRecoverySevere]
  split_ifs <;> rfl

theorem updatePostRecoveryImmunity_vac (dp : DiseaseParameters) (e : ℚ → ℚ)
    (day : ℤ) (p : Person) :
    vacFields (updatePostRecoveryImmunity dp e day p) = vacFields p := by
  simp only [updatePostRecoveryImmunity]
  split_ifs with h
  · rfl
  · rw [postRecoverySevere_vac, postRecoveryRegime_vac]

theorem transitionToRecovered_vac (dp : DiseaseParameters) (day : ℤ) (p : Person) :
    vacFields (transitionToRecovered dp day p) = vacFields p := rfl

theorem progressActive_vac (dp : DiseaseParameters) (day : ℤ) (p : Person) :
    vacFields (progressActive dp day p) = vacFields p := by
  simp only [progressActive, transitionToRecovered]
  split <;> split <;> (try split_ifs) <;> rfl

theorem applySeverity_vac (dp : DiseaseParameters) (o : Oracle) (day : ℤ)
    (sev : Severity) (p : Person) :
    vacFields (applySeverity dp o day sev p) = vacFields p := by
  cases sev <;> simp only [applySeverity] <;> (try split_ifs) <;> rfl

theorem correctiveRecover_vac (dp : DiseaseParameters) (p : Person) :
    vacFields (correctiveRecover dp p) = vacFields p := by
  simp only [correctiveRecover]
  split_ifs <;> rfl

theorem setDiseaseProgression_vac (dp : DiseaseParameters) (o : Oracle) (day : ℤ)
    (p : Person) : vacFields (setDiseaseProgression dp o day p) = vacFields p := by
  simp only [setDiseaseProgression]
  rw [correctiveRecover_vac, applySeverity_vac]
  rfl

theorem infectPerson_vac (dp : DiseaseParameters) (o : Oracle) (day : ℤ) (p : Person) :
    vacFields (infectPerson dp o day p) = vacFields p := by
  simp only [infectPerson]
  rw [setDiseaseProgression_vac]
  rfl

theorem quarantinePerson_vac (ip : InterventionParameters) (o : Oracle) (day : ℤ)
    (p : Person) : vacFields (quarantinePerson ip o day p) = vacFields p := by
  simp only [quarantinePerson]
  split_ifs <;> rfl

theorem vacZero_of_fields (p : Person)
    (h : vacFields p = (0, 0, 0)) : VacZero p := by
  simp only [vacFields, Prod.mk.injEq] at h
  exact ⟨h.1, h.2.1, h.2.2⟩

theorem fields_of_vacZero (p : Person) (h : VacZero p) : vacFields p = (0, 0, 0) := by
  simp only [vacFields, h.1, h.2.1, h.2.2]

theorem progressPerson_vacZero (cfg : Config) (o : Oracle) (day : ℤ) (p : Person)
    (hnone : cfg.vp.vaccineType = .none) (hd : p.vaccinationDoses = 0) :
    VacZero (progressPerson cfg o day p) := by
  simp only [progressPerson]
  have h1 : vacFields (updateVaccineProtection cfg.vp cfg.expQ day
      (quarantineRelease cfg.ip day p)) = (0, 0, 0) := by
    rw [updateVaccineProtection_none _ _ _ _ hnone]
    have := quarantineRelease_vac cfg.ip day p
    simp only [vacFields, Prod.mk.injEq] at this
    rw [this.2.2, hd]
  split_ifs with h2 h3
  · exact vacZero_of_fields _ h1
  · exact vacZero_of_fields _ (by rw [updatePostRecoveryImmunity_vac]; exact h1)
  · exact vacZero_of_fields _ (by rw [progressActive_vac]; exact h1)

theorem progressionStep_vacZero (cfg : Config) (o : Oracle) (day : ℤ)
    (people : ℕ → Person) (hnone : cfg.vp.vaccineType = .none)
    (hd : ∀ i, (people i).vaccinationDoses = 0) :
    ∀ i, VacZero (progressionStep cfg o day people i) := by
  intro i
  exact progressPerson_vacZero cfg o day (people i) hnone (hd i)

theorem transmissionStep_vacZero (cfg : Config) (o : Oracle) (day : ℤ)
    (people : ℕ → Person) (events : List TransmissionEvent)
    (hz : ∀ i, VacZero (people i)) :
    ∀ i, VacZero ((transmissionStep cfg o day (people, events)).1 i) := by
  intro i
  rcases transmissionStep_inv cfg o day people events i with h | ⟨_, _, heq⟩
  · rw [h]; exact hz i
  · rw [heq]
    exact vacZero_of_fields _ (by rw [infectPerson_vac]; exact fields_of_vacZero _ (hz i))

theorem interventionStep_vacZero (cfg : Config) (o : Oracle) (day : ℤ)
    (people : ℕ → Person) (hz : ∀ i, VacZero (people i)) :
    ∀ i, VacZero (interventionStep cfg o day people i) := by
  intro i
  simp only [interventionStep]
  split_ifs with h
  · exact vacZero_of_fields _ (by rw [quarantinePerson_vac]; exact fields_of_vacZero _ (hz i))
  · exact hz i

theorem vaccinationStep_none (cfg : Config) (o : Oracle) (day : ℤ)
    (people : ℕ → Person) (hnone : cfg.vp.vaccineType = .none) :
    vaccinationStep cfg o day people = people := by
  simp only [vaccinationStep]
  rw [if_pos hnone]

theorem stepDay_vacZero (cfg : Config) (o : Oracle) (day : ℤ) (s : SimState)
    (hnone : cfg.vp.vaccineType = .none) (hz : ∀ i, VacZero (s.people i)) :
    ∀ i, VacZero ((stepDay cfg o day s).people i) := by
  intro i
  simp only [stepDay]
  rw [vaccinationStep_none cfg o day _ hnone]
  have h1 := progressionStep_vacZero cfg o day s.people hnone (fun j => (hz j).2.2)
  have h2 := transmissionStep_vacZero cfg o day _ s.events h1
  exact interventionStep_vacZero cfg o day _ h2 i

theorem seedOne_vacZero (cfg : Config) (o : Oracle) (pm : ℕ → Person) (pid : ℕ)
    (hz : ∀ i, VacZero (pm i)) : ∀ i, VacZero (seedOne cfg o pm pid i) := by
  intro i
  simp only [seedOne]
  by_cases hip : i = pid
  · subst hip
    rw [Function.update_same]
    refine vacZero_of_fields _ ?_
    rw [setDiseaseProgression_vac]
    exact fields_of_vacZero _ (hz i)
  · rw [Function.update_noteq hip]
    exact hz i

theorem initializeSeeds_vacZero (cfg : Config) (o : Oracle) (nSeeds : ℕ)
    (people : ℕ → Person) (hz : ∀ i, VacZero (people i)) :
    ∀ i, VacZero (initializeSeeds cfg o nSeeds people i) := by
  simp only [initializeSeeds]
  generalize (sampleList o.seedDraw (min nSeeds (seedPool cfg people).length)
    (seedPool cfg people)) = seeds
  induction seeds generalizing people with
  | nil => exact hz
  | cons a t ih =>
    simp only [List.foldl_cons]
    exact ih _ (seedOne_vacZero cfg o people a hz)

theorem simLoop_vacZero (cfg : Config) (o : Oracle) (hnone : cfg.vp.vaccineType = .none) :
    ∀ (n : ℕ) (day : ℤ) (s : SimState), (∀ i, VacZero (s.people i)) →
      ∀ i, VacZero ((simLoop cfg o n day s).people i) := by
  intro n
  induction n with
  | zero => intro day s hz; exact hz
  | succ m ih =>
    intro day s hz
    rw [simLoop_succ]
    exact ih _ _ (stepDay_vacZero cfg o day s hnone hz)

/-- Claim C7: with `vaccine_type == "none"`, every agent's
`vaccine_protection_infection` and `vaccine_protection_severe` stay `0`
for the whole run (no dose is ever administered and every protection
update resets both fields to `0`). -/
theorem C7_vaccine_none (cfg : Config) (o : Oracle) (days nSeeds : ℕ)
    (people : ℕ → Person) (hnone : cfg.vp.vaccineType = .none)
    (hz : ∀ i, VacZero (people i)) :
    ∀ i, ((runSimulation cfg o days nSeeds people).people i).vaccineProtectionInfection = 0 ∧
      ((runSimulation cfg o days nSeeds people).people i).vaccineProtectionSevere = 0 ∧
      ((runSimulation cfg o days nSeeds people).people i).vaccinationDoses = 0 := by
  intro i
  exact simLoop_vacZero cfg o hnone days 0 _
    (initializeSeeds_vacZero cfg o nSeeds people hz) i

/-- Witness for claim C7 at the concrete claim-C5 configuration (whose
vaccine bundle is the default, `vaccine_type == "none"`). -/
theorem C7_vaccine_none_witness :
    ((runSimulation c5Cfg c5Oracle 3 5 c5Person).people 0).vaccineProtectionInfection = 0 ∧
    ((runSimulation c5Cfg c5Oracle 3 5 c5Person).people 0).vaccineProtectionSevere = 0 ∧
    ((runSimulation c5Cfg c5Oracle 3 5 c5Person).people 0).vaccinationDoses = 0 :=
  C7_vaccine_none c5Cfg c5Oracle 3 5 c5Person rfl (fun _ => ⟨rfl, rfl, rfl⟩) 0


theorem bucket_one (p : Person) :
    ((if isSusceptible p then 1 else 0) + (if isInfected p then 1 else 0) +
     (if isRecovered p then 1 else 0) + (if isDead p then 1 else 0) : ℕ) = 1 := by
  cases hds : p.diseaseState <;>
    simp [isSusceptible, isInfected, isRecovered, isDead, hds, activeStates,
      recoveredStates]

theorem countP_partition (l : List Person) :
    l.countP isSusceptible + l.countP isInfected + l.countP isRecovered +
      l.countP isDead = l.length := by
  induction l with
  | nil => rfl
  | cons a t ih =>
    simp only [List.countP_cons, List.length_cons]
    have h := bucket_one a
    omega

theorem snapshot_length (size : ℕ) (people : ℕ → Person) :
    (snapshot size people).length = size := by
  simp [snapshot]

theorem recordDailyStats_conserves (cfg : Config) (day : ℤ) (people : ℕ → Person)
    (rows : List DayRow) (row : DayRow)
    (h : row ∈ recordDailyStats cfg day people rows) :
    row ∈ rows ∨
      row.susceptible + row.infected + row.recovered + row.dead = cfg.size := by
  simp only [recordDailyStats, List.mem_append, List.mem_singleton] at h
  rcases h with h | h
  · exact Or.inl h
  · right
    rw [h]
    have h1 := countP_partition (snapshot cfg.size people)
    rw [snapshot_length] at h1
    exact h1

theorem simLoop_conserves (cfg : Config) (o : Oracle) :
    ∀ (n : ℕ) (day : ℤ) (s : SimState),
      (∀ row ∈ s.rows,
        row.susceptible + row.infected + row.recovered + row.dead = cfg.size) →
      ∀ row ∈ (simLoop cfg o n day s).rows,
        row.susceptible + row.infected + row.recovered + row.dead = cfg.size := by
  intro n
  induction n with
  | zero => intro day s h; exact h
  | succ m ih =>
    intro day s h
    rw [simLoop_succ]
    refine ih _ _ ?_
    intro row hrow
    rcases recordDailyStats_conserves cfg day _ _ row hrow with hmem | hsum
    · exact h row (by rw [stepDay_rows] at hmem; exact hmem)
    · exact hsum

/-- Claim C1: on every simulated day the recorded susceptible, infected,
recovered and dead counts sum to the population size — every agent falls in
exactly one of the four buckets and no agent is created or destroyed. -/
theorem C1_conservation (cfg : Config) (o : Oracle) (days nSeeds : ℕ)
    (people : ℕ → Person) (row : DayRow)
    (h : row ∈ (runSimulation cfg o days nSeeds people).rows) :
    row.susceptible + row.infected + row.recovered + row.dead = cfg.size := by
  refine simLoop_conserves cfg o days 0 _ ?_ row h
  intro r hr
  simp at hr

/-- A two-agent, zero-seed, one-day run for the claim-C1 witness. -/
def c1Cfg : Config := { c5Cfg with size := 2 }

/-- The day-0 row of the claim-C1 witness run. -/
def c1Row : DayRow :=
  { day := 0, susceptible := 2, infected := 0, recovered := 0, dead := 0,
    hospitalized := 0, critical := 0, newInfections := 0, newDeaths := 0 }

/-- Witness for claim C1 at a concrete two-agent run. -/
theorem C1_conservation_witness :
    c1Row.susceptible + c1Row.infected + c1Row.recovered + c1Row.dead = c1Cfg.size :=
  C1_conservation c1Cfg c5Oracle 1 0 c5Person c1Row (by decide)


theorem personBounded_frame (p q : Person)
    (h1 : q.infectionProtectionLevel = p.infectionProtectionLevel)
    (h2 : q.severeProtectionLevel = p.severeProtectionLevel)
    (h3 : q.vaccineProtectionInfection = p.vaccineProtectionInfection)
    (h4 : q.vaccineProtectionSevere = p.vaccineProtectionSevere)
    (h5 : q.infectiousProfile = p.infectiousProfile)
    (h6 : q.individualInfectiousnessFactor = p.individualInfectiousnessFactor)
    (hb : PersonBounded p) : PersonBounded q := by
  obtain ⟨b1, b2, b3, b4, b5, b6, b7, b8, b9, b10⟩ := hb
  exact ⟨h1 ▸ b1, h1 ▸ b2, h2 ▸ b3, h2 ▸ b4, h3 ▸ b5, h3 ▸ b6, h4 ▸ b7, h4 ▸ b8,
    h5 ▸ b9, h6 ▸ b10⟩

theorem computeSusceptibility_bounds (dp : DiseaseParameters) (p : Person) :
    0 ≤ computeSusceptibility dp p ∧ computeSusceptibility dp p ≤ 1 := by
  unfold computeSusceptibility
  constructor
  · exact le_max_left 0 _
  · exact max_le (by norm_num) (min_le_left 1 _)

theorem min_one_bounds (x : ℚ) (h : 0 ≤ x) : 0 ≤ min 1 x ∧ min 1 x ≤ 1 :=
  ⟨le_min (by norm_num) h, min_le_left 1 x⟩

theorem vaccineDecay_bounds (e : ℚ → ℚ) (ds : ℤ) (pd rate : ℚ)
    (hexp : ExpValid e) (hrate : 0 ≤ rate) :
    0 ≤ vaccineDecay e ds pd rate ∧ vaccineDecay e ds pd rate ≤ 1 := by
  unfold vaccineDecay
  split_ifs with h1 h2
  · exact ⟨by norm_num, le_refl 1⟩
  · have harg : -(rate * (ds : ℚ)) ≤ 0 := by
      have : (0 : ℚ) ≤ (ds : ℚ) := by
        have : (0 : ℤ) ≤ ds := by omega
        exact_mod_cast this
      nlinarith
    have he := hexp _ harg
    exact ⟨le_max_left 0 _, max_le (by norm_num) he.2⟩
  · have hds : (0 : ℚ) < (ds : ℚ) := by
      have : (0 : ℤ) < ds := by omega
      exact_mod_cast this
    have hpd : 0 < pd := lt_of_not_le h2
    have harg : -(rate * ((ds : ℚ) / pd)) ≤ 0 := by
      have : 0 ≤ (ds : ℚ) / pd := div_nonneg hds.le hpd.le
      nlinarith
    have he := hexp _ harg
    exact ⟨le_max_left 0 _, max_le (by norm_num) he.2⟩

set_option maxHeartbeats 1000000 in
theorem updateVaccineProtection_frame (vp : VaccineParameters) (e : ℚ → ℚ)
    (day : ℤ) (p : Person) :
    (updateVaccineProtection vp e day p).infectionProtectionLevel =
        p.infectionProtectionLevel ∧
    (updateVaccineProtection vp e day p).severeProtectionLevel =
        p.severeProtectionLevel ∧
    (updateVaccineProtection vp e day p).infectiousProfile = p.infectiousProfile ∧
    (updateVaccineProtection vp e day p).individualInfectiousnessFactor =
        p.individualInfectiousnessFactor := by
  simp only [updateVaccineProtection]
  split_ifs <;> exact ⟨rfl, rfl, rfl, rfl⟩

set_option maxHeartbeats 1600000 in
theorem updateVaccineProtection_vacBounds (vp : VaccineParameters) (e : ℚ → ℚ)
    (day : ℤ) (p : Person) (hvp : VaccineParamsValid vp) (hexp : ExpValid e) :
    0 ≤ (updateVaccineProtection vp e day p).vaccineProtectionInfection ∧
    (updateVaccineProtection vp e day p).vaccineProtectionInfection ≤ 1 ∧
    0 ≤ (updateVaccineProtection vp e day p).vaccineProtectionSevere ∧
    (updateVaccineProtection vp e day p).vaccineProtectionSevere ≤ 1 := by
  obtain ⟨v1, v2, v3, v4, v5, v6, v7, v8, v9, v10, v11⟩ := hvp
  simp only [updateVaccineProtection]
  split_ifs
  all_goals refine ⟨?_, ?_, ?_, ?_⟩
  all_goals try exact le_refl 0
  all_goals try exact zero_le_one
  all_goals try exact min_le_left _ _
  all_goals first
    | exact (le_min zero_le_one (mul_nonneg (le_min zero_le_one v1)
        (vaccineDecay_bounds e (day - p.dose2Day) vp.sterilizingProtectionDays
          vp.sterilizingDecayRate hexp v2).1) :
        (0:ℚ) ≤ min 1 (min 1 vp.sterilizingEfficacyInfection *
          vaccineDecay e (day - p.dose2Day) vp.sterilizingProtectionDays
            vp.sterilizingDecayRate))
    | exact (le_min zero_le_one (mul_nonneg (le_min zero_le_one v1)
        (vaccineDecay_bounds e (day - p.dose1Day) vp.sterilizingProtectionDays
          vp.sterilizingDecayRate hexp v2).1) :
        (0:ℚ) ≤ min 1 (min 1 vp.sterilizingEfficacyInfection *
          vaccineDecay e (day - p.dose1Day) vp.sterilizingProtectionDays
            vp.sterilizingDecayRate))
    | exact (le_min zero_le_one (mul_nonneg (by nlinarith)
        (vaccineDecay_bounds e (day - p.dose2Day) vp.nonSterilizingProtectionDays
          vp.nonSterilizingDecayRate hexp v11).1) :
        (0:ℚ) ≤ min 1 ((1 - (1 - vp.nonSterilizingEfficacyInfectionDose1) *
          (1 - vp.nonSterilizingEfficacyInfectionDose2)) *
          vaccineDecay e (day - p.dose2Day) vp.nonSterilizingProtectionDays
            vp.nonSterilizingDecayRate))
    | exact (le_min zero_le_one (mul_nonneg (by nlinarith)
        (vaccineDecay_bounds e (day - p.dose2Day) vp.nonSterilizingProtectionDays
          vp.nonSterilizingDecayRate hexp v11).1) :
        (0:ℚ) ≤ min 1 ((1 - (1 - vp.nonSterilizingEfficacySevereDose1) *
          (1 - vp.nonSterilizingEfficacySevereDose2)) *
          vaccineDecay e (day - p.dose2Day) vp.nonSterilizingProtectionDays
            vp.nonSterilizingDecayRate))
    | exact (le_min zero_le_one (mul_nonneg v3
        (vaccineDecay_bounds e (day - p.dose1Day) vp.nonSterilizingProtectionDays
          vp.nonSterilizingDecayRate hexp v11).1) :
        (0:ℚ) ≤ min 1 (vp.nonSterilizingEfficacyInfectionDose1 *
          vaccineDecay e (day - p.dose1Day) vp.nonSterilizingProtectionDays
            vp.nonSterilizingDecayRate))
    | exact (le_min zero_le_one (mul_nonneg v7
        (vaccineDecay_bounds e (day - p.dose1Day) vp.nonSterilizingProtectionDays
          vp.nonSterilizingDecayRate hexp v11).1) :
        (0:ℚ) ≤ min 1 (vp.nonSterilizingEfficacySevereDose1 *
          vaccineDecay e (day - p.dose1Day) vp.nonSterilizingProtectionDays
            vp.nonSterilizingDecayRate))
    | omega

theorem updateVaccineProtection_bounded (vp : VaccineParameters) (e : ℚ → ℚ)
    (day : ℤ) (p : Person) (hvp : VaccineParamsValid vp) (hexp : ExpValid e)
    (hb : PersonBounded p) :
    PersonBounded (updateVaccineProtection vp e day p) := by
  obtain ⟨b1, b2, b3, b4, b5, b6, b7, b8, b9, b10⟩ := hb
  obtain ⟨f1, f2, f3, f4⟩ := updateVaccineProtection_frame vp e day p
  obtain ⟨w1, w2, w3, w4⟩ := updateVaccineProtection_vacBounds vp e day p hvp hexp
  exact ⟨f1 ▸ b1, f1 ▸ b2, f2 ▸ b3, f2 ▸ b4, w1, w2, w3, w4, f3 ▸ b9, f4 ▸ b10⟩

theorem clamp01_le_one (r w : ℚ) (hr0 : 0 ≤ r) (hr1 : r ≤ 1) :
    r * (1 - min (max w 0) 1) ≤ 1 := by
  have h0 : 0 ≤ min (max w 0) 1 := le_min (le_max_right w 0) zero_le_one
  have h1 : min (max w 0) 1 ≤ 1 := min_le_right _ _
  nlinarith

theorem decayArg_nonpos (r a b : ℚ) (hr : 0 ≤ r) : -(r * max a 0 / max b 1) ≤ 0 := by
  have h1 : 0 ≤ max a 0 := le_max_right a 0
  have h2 : (0:ℚ) < max b 1 := lt_of_lt_of_le one_pos (le_max_right b 1)
  have h3 : 0 ≤ r * max a 0 / max b 1 := div_nonneg (mul_nonneg hr h1) h2.le
  linarith

theorem transitionToRecovered_bounded (dp : DiseaseParameters) (day : ℤ) (p : Person)
    (hdp : DiseaseParamsValid dp) (hb : PersonBounded p) :
    PersonBounded (transitionToRecovered dp day p) := by
  obtain ⟨b1, b2, b3, b4, b5, b6, b7, b8, b9, b10⟩ := hb
  obtain ⟨d1, d2, d3, d4, d5, d6, d7, d8, d9⟩ := hdp
  exact ⟨d5, d6, zero_le_one, le_refl 1, b5, b6, b7, b8, b9, b10⟩

theorem postRecoveryRegime_bounded (dp : DiseaseParameters) (day : ℤ) (p : Person)
    (hdp : DiseaseParamsValid dp) (hb : PersonBounded p) :
    PersonBounded (postRecoveryRegime dp day p) := by
  obtain ⟨b1, b2, b3, b4, b5, b6, b7, b8, b9, b10⟩ := hb
  obtain ⟨d1, d2, d3, d4, d5, d6, d7, d8, d9⟩ := hdp
  simp only [postRecoveryRegime]
  split_ifs with h1 h2
  · exact ⟨d5, d6, b3, b4, b5, b6, b7, b8, b9, b10⟩
  · refine ⟨le_trans d7 (le_max_left _ _), max_le d8 (clamp01_le_one _ _ d5 d6),
      b3, b4, b5, b6, b7, b8, b9, b10⟩
  · refine ⟨le_max_left 0 _, max_le zero_le_one (by linarith), b3, b4, b5, b6, b7,
      b8, b9, b10⟩

theorem postRecoverySevere_bounded (dp : DiseaseParameters) (e : ℚ → ℚ) (day : ℤ)
    (p : Person) (hdp : DiseaseParamsValid dp) (hexp : ExpValid e)
    (hb : PersonBounded p) : PersonBounded (postRecoverySevere dp e day p) := by
  obtain ⟨b1, b2, b3, b4, b5, b6, b7, b8, b9, b10⟩ := hb
  obtain ⟨d1, d2, d3, d4, d5, d6, d7, d8, d9⟩ := hdp
  have he := hexp _ (decayArg_nonpos dp.severeProtectionDecayRate
    (((day - p.recoveryDay : ℤ) : ℚ)) dp.severeProtectionDays d9)
  simp only [postRecoverySevere]
  split_ifs with h1
  · exact ⟨b1, b2, le_max_left 0 _, max_le zero_le_one (by nlinarith), b5, b6, b7,
      b8, b9, b10⟩
  · exact ⟨b1, b2, le_trans d7 (le_max_left _ _), max_le d8 (min_le_left _ _), b5,
      b6, b7, b8, b9, b10⟩

theorem updatePostRecoveryImmunity_bounded (dp : DiseaseParameters) (e : ℚ → ℚ)
    (day : ℤ) (p : Person) (hdp : DiseaseParamsValid dp) (hexp : ExpValid e)
    (hb : PersonBounded p) : PersonBounded (updatePostRecoveryImmunity dp e day p) := by
  simp only [updatePostRecoveryImmunity]
  split_ifs with h1
  · exact hb
  · have h2 := postRecoveryRegime_bounded dp day p hdp hb
    have h3 := postRecoverySevere_bounded dp e day _ hdp hexp h2
    have h4 : (postRecoveryRegime dp day p).recoveryDay = p.recoveryDay := by
      simp only [postRecoveryRegime]
      split_ifs <;> rfl
    exact h3

theorem quarantineRelease_bounded (ip : InterventionParameters) (day : ℤ) (p : Person)
    (hb : PersonBounded p) : PersonBounded (quarantineRelease ip day p) := by
  simp only [quarantineRelease]
  split_ifs
  · exact personBounded_frame _ _ rfl rfl rfl rfl rfl rfl hb
  · exact hb

theorem quarantinePerson_bounded (ip : InterventionParameters) (o : Oracle) (day : ℤ)
    (p : Person) (hb : PersonBounded p) : PersonBounded (quarantinePerson ip o day p) := by
  simp only [quarantinePerson]
  split_ifs
  · exact personBounded_frame _ _ rfl rfl rfl rfl rfl rfl hb
  · exact hb

theorem applySeverity_boundFrame (dp : DiseaseParameters) (o : Oracle) (day : ℤ)
    (sev : Severity) (p : Person) :
    (applySeverity dp o day sev p).infectionProtectionLevel = p.infectionProtectionLevel ∧
    (applySeverity dp o day sev p).severeProtectionLevel = p.severeProtectionLevel ∧
    (applySeverity dp o day sev p).vaccineProtectionInfection = p.vaccineProtectionInfection ∧
    (applySeverity dp o day sev p).vaccineProtectionSevere = p.vaccineProtectionSevere ∧
    (applySeverity dp o day sev p).infectiousProfile = p.infectiousProfile ∧
    (applySeverity dp o day sev p).individualInfectiousnessFactor =
      p.individualInfectiousnessFactor := by
  cases sev <;> refine ⟨?_, ?_, ?_, ?_, ?_, ?_⟩ <;> simp only [applySeverity] <;>
    (try split_ifs) <;> rfl

theorem correctiveRecover_boundFrame (dp : DiseaseParameters) (p : Person) :
    (correctiveRecover dp p).infectionProtectionLevel = p.infectionProtectionLevel ∧
    (correctiveRecover dp p).severeProtectionLevel = p.severeProtectionLevel ∧
    (correctiveRecover dp p).vaccineProtectionInfection = p.vaccineProtectionInfection ∧
    (correctiveRecover dp p).vaccineProtectionSevere = p.vaccineProtectionSevere ∧
    (correctiveRecover dp p).infectiousProfile = p.infectiousProfile ∧
    (correctiveRecover dp p).individualInfectiousnessFactor =
      p.individualInfectiousnessFactor := by
  simp only [correctiveRecover]
  split_ifs <;> exact ⟨rfl, rfl, rfl, rfl, rfl, rfl⟩

theorem setDiseaseProgression_bounded (dp : DiseaseParameters) (o : Oracle) (day : ℤ)
    (p : Person) (hb : PersonBounded p) :
    PersonBounded (setDiseaseProgression dp o day p) := by
  simp only [setDiseaseProgression]
  obtain ⟨c1, c2, c3, c4, c5, c6⟩ := correctiveRecover_boundFrame dp
    (applySeverity dp o day
      (chooseSeverity (severityProbs dp (resetProgression p))
        (o.sevU day (resetProgression p).id))
      { resetProgression p with
          timeToSymptoms := sampleTime dp.meanTimeToSymptoms dp.sdTimeToSymptoms
            (o.gammaSymptoms day (resetProgression p).id) })
  obtain ⟨a1, a2, a3, a4, a5, a6⟩ := applySeverity_boundFrame dp o day
    (chooseSeverity (severityProbs dp (resetProgression p))
      (o.sevU day (resetProgression p).id))
    { resetProgression p with
        timeToSymptoms := sampleTime dp.meanTimeToSymptoms dp.sdTimeToSymptoms
          (o.gammaSymptoms day (resetProgression p).id) }
  exact personBounded_frame _ _ (c1.trans a1) (c2.trans a2) (c3.trans a3)
    (c4.trans a4) (c5.trans a5) (c6.trans a6) hb

theorem infectPerson_bounded (dp : DiseaseParameters) (o : Oracle) (day : ℤ)
    (p : Person) (hb : PersonBounded p) : PersonBounded (infectPerson dp o day p) := by
  obtain ⟨b1, b2, b3, b4, b5, b6, b7, b8, b9, b10⟩ := hb
  simp only [infectPerson]
  refine setDiseaseProgression_bounded dp o day _ ?_
  exact ⟨le_refl 0, zero_le_one, le_max_left 0 _,
    max_le zero_le_one (by nlinarith), b5, b6, b7, b8, b9, b10⟩

set_option maxHeartbeats 2000000 in
theorem progressActive_bounded (dp : DiseaseParameters) (day : ℤ) (p : Person)
    (hdp : DiseaseParamsValid dp) (hb : PersonBounded p) :
    PersonBounded (progressActive dp day p) := by
  simp only [progressActive]
  have hb' : PersonBounded (if p.diseaseState ∈ activeStates then
      { p with daysInfected := p.daysInfected + 1 } else p) := by
    split_ifs
    · exact personBounded_frame _ _ rfl rfl rfl rfl rfl rfl hb
    · exact hb
  generalize hq : (if p.diseaseState ∈ activeStates then
      { p with daysInfected := p.daysInfected + 1 } else p) = q at hb' ⊢
  cases hds : q.diseaseState <;> (try split_ifs) <;>
    first
      | exact hb'
      | exact transitionToRecovered_bounded dp day q hdp hb'
      | exact personBounded_frame _ _ rfl rfl rfl rfl rfl rfl hb'

theorem progressPerson_bounded (cfg : Config) (o : Oracle) (day : ℤ) (p : Person)
    (hdp : DiseaseParamsValid cfg.dp) (hvp : VaccineParamsValid cfg.vp)
    (hexp : ExpValid cfg.expQ) (hb : PersonBounded p) :
    PersonBounded (progressPerson cfg o day p) := by
  simp only [progressPerson]
  have h1 := quarantineRelease_bounded cfg.ip day p hb
  have h2 := updateVaccineProtection_bounded cfg.vp cfg.expQ day _ hvp hexp h1
  split_ifs with h3 h4
  · exact h2
  · exact updatePostRecoveryImmunity_bounded cfg.dp cfg.expQ day _ hdp hexp h2
  · exact progressActive_bounded cfg.dp day _ hdp h2

theorem administerVaccineDose_bounded (vp : VaccineParameters) (e : ℚ → ℚ) (day : ℤ)
    (p : Person) (hvp : VaccineParamsValid vp) (hexp : ExpValid e)
    (hb : PersonBounded p) : PersonBounded (administerVaccineDose vp e day p) := by
  simp only [administerVaccineDose]
  refine updateVaccineProtection_bounded vp e day _ hvp hexp ?_
  split_ifs
  · exact personBounded_frame _ _ rfl rfl rfl rfl rfl rfl hb
  · exact personBounded_frame _ _ rfl rfl rfl rfl rfl rfl hb
  · exact personBounded_frame _ _ rfl rfl rfl rfl rfl rfl hb

theorem vaccinatePerson_bounded (vp : VaccineParameters) (e : ℚ → ℚ) (o : Oracle)
    (day : ℤ) (p : Person) (hvp : VaccineParamsValid vp) (hexp : ExpValid e)
    (hb : PersonBounded p) : PersonBounded (vaccinatePerson vp e o day p) := by
  simp only [vaccinatePerson]
  split_ifs
  all_goals first
    | exact hb
    | exact administerVaccineDose_bounded vp e day p hvp hexp hb

theorem progressionStep_bounded (cfg : Config) (o : Oracle) (day : ℤ)
    (people : ℕ → Person) (hdp : DiseaseParamsValid cfg.dp)
    (hvp : VaccineParamsValid cfg.vp) (hexp : ExpValid cfg.expQ)
    (hb : ∀ i, PersonBounded (people i)) :
    ∀ i, PersonBounded (progressionStep cfg o day people i) := by
  intro i
  exact progressPerson_bounded cfg o day (people i) hdp hvp hexp (hb i)

theorem transmissionStep_bounded (cfg : Config) (o : Oracle) (day : ℤ)
    (people : ℕ → Person) (events : List TransmissionEvent)
    (hb : ∀ i, PersonBounded (people i)) :
    ∀ i, PersonBounded ((transmissionStep cfg o day (people, events)).1 i) := by
  intro i
  rcases transmissionStep_inv cfg o day people events i with h | ⟨_, _, heq⟩
  · rw [h]; exact hb i
  · rw [heq]
    exact infectPerson_bounded cfg.dp o day (people i) (hb i)

theorem interventionStep_bounded (cfg : Config) (o : Oracle) (day : ℤ)
    (people : ℕ → Person) (hb : ∀ i, PersonBounded (people i)) :
    ∀ i, PersonBounded (interventionStep cfg o day people i) := by
  intro i
  simp only [interventionStep]
  split_ifs
  · exact quarantinePerson_bounded cfg.ip o day (people i) (hb i)
  · exact hb i

theorem vaccinationStep_bounded (cfg : Config) (o : Oracle) (day : ℤ)
    (people : ℕ → Person) (hvp : VaccineParamsValid cfg.vp) (hexp : ExpValid cfg.expQ)
    (hb : ∀ i, PersonBounded (people i)) :
    ∀ i, PersonBounded (vaccinationStep cfg o day people i) := by
  intro i
  simp only [vaccinationStep]
  split_ifs
  · exact hb i
  · exact vaccinatePerson_bounded cfg.vp cfg.expQ o day (people i) hvp hexp (hb i)

theorem stepDay_bounded (cfg : Config) (o : Oracle) (day : ℤ) (s : SimState)
    (hdp : DiseaseParamsValid cfg.dp) (hvp : VaccineParamsValid cfg.vp)
    (hexp : ExpValid cfg.expQ) (hb : ∀ i, PersonBounded (s.people i)) :
    ∀ i, PersonBounded ((stepDay cfg o day s).people i) := by
  simp only [stepDay]
  have h1 := progressionStep_bounded cfg o day s.people hdp hvp hexp hb
  have h2 := transmissionStep_bounded cfg o day _ s.events h1
  have h3 := interventionStep_bounded cfg o day _ h2
  exact vaccinationStep_bounded cfg o day _ hvp hexp h3

theorem seedOne_bounded (cfg : Config) (o : Oracle) (pm : ℕ → Person) (pid : ℕ)
    (hb : ∀ i, PersonBounded (pm i)) : ∀ i, PersonBounded (seedOne cfg o pm pid i) := by
  intro i
  simp only [seedOne]
  by_cases hip : i = pid
  · subst hip
    rw [Function.update_same]
    refine setDiseaseProgression_bounded cfg.dp o 0 _ ?_
    exact personBounded_frame _ _ rfl rfl rfl rfl rfl rfl (hb i)
  · rw [Function.update_noteq hip]
    exact hb i

theorem initializeSeeds_bounded (cfg : Config) (o : Oracle) (nSeeds : ℕ)
    (people : ℕ → Person) (hb : ∀ i, PersonBounded (people i)) :
    ∀ i, PersonBounded (initializeSeeds cfg o nSeeds people i) := by
  simp only [initializeSeeds]
  generalize (sampleList o.seedDraw (min nSeeds (seedPool cfg people).length)
    (seedPool cfg people)) = seeds
  induction seeds generalizing people with
  | nil => exact hb
  | cons a t ih =>
    simp only [List.foldl_cons]
    exact ih _ (seedOne_bounded cfg o people a hb)

theorem simLoop_bounded (cfg : Config) (o : Oracle) (hdp : DiseaseParamsValid cfg.dp)
    (hvp : VaccineParamsValid cfg.vp) (hexp : ExpValid cfg.expQ) :
    ∀ (n : ℕ) (day : ℤ) (s : SimState), (∀ i, PersonBounded (s.people i)) →
      ∀ i, PersonBounded ((simLoop cfg o n day s).people i) := by
  intro n
  induction n with
  | zero => intro day s hb; exact hb
  | succ m ih =>
    intro day s hb
    rw [simLoop_succ]
    exact ih _ _ (stepDay_bounded cfg o day s hdp hvp hexp hb)

theorem getD_nonneg_of_unit (l : List ℚ) (h : ∀ v ∈ l, 0 ≤ v ∧ v ≤ 1) :
    ∀ i : ℕ, 0 ≤ l.getD i 1 := by
  induction l with
  | nil => intro i; simp [List.getD]
  | cons a t ih =>
    intro i
    cases i with
    | zero => exact (h a (List.mem_cons_self a t)).1
    | succ j =>
      simp only [List.getD_cons_succ]
      exact ih (fun v hv => h v (List.mem_cons_of_mem a hv)) j

theorem severityFactor_nonneg (dp : DiseaseParameters) (s : DiseaseState)
    (hdp : DiseaseParamsValid dp) : 0 ≤ severityFactor dp s := by
  obtain ⟨d1, d2, d3, d4, d5, d6, d7, d8, d9⟩ := hdp
  simp only [severityFactor]
  split_ifs <;> assumption

theorem sourceBaseProb_nonneg (dp : DiseaseParameters) (p : Person)
    (hdp : DiseaseParamsValid dp) (hb : PersonBounded p) :
    0 ≤ sourceBaseProb dp p := by
  obtain ⟨b1, b2, b3, b4, b5, b6, b7, b8, b9, b10⟩ := hb
  simp only [sourceBaseProb]
  refine mul_nonneg (mul_nonneg (mul_nonneg ?_ ?_) b10)
    (severityFactor_nonneg dp p.diseaseState hdp)
  · exact div_nonneg hdp.1 (by norm_num)
  · split_ifs
    · exact getD_nonneg_of_unit p.infectiousProfile b9 _
    · exact zero_le_one

theorem transmissionProbability_bounds (dp : DiseaseParameters)
    (baseProb mult : ℚ) (contact : Person) (hbase : 0 ≤ baseProb)
    (hmult : 0 ≤ mult) :
    0 ≤ transmissionProbability dp baseProb mult contact ∧
    transmissionProbability dp baseProb mult contact ≤ 1 := by
  constructor
  · exact le_min zero_le_one (mul_nonneg (mul_nonneg hbase hmult)
      (computeSusceptibility_bounds dp contact).1)
  · exact min_le_left _ _

/-- Claim C4: the susceptibility of `_compute_susceptibility` always lies in
`[0,1]`; under valid parameters every agent's four protection levels (and
the infectiousness data feeding the contact probability) stay bounded
through the whole run; and the transmission probability compared against
the uniform draw in `_transmission_step` lies in `[0,1]` for every layer
multiplier. -/
theorem C4_probability_bounds (cfg : Config) (o : Oracle) (days nSeeds : ℕ)
    (people : ℕ → Person) (hdp : DiseaseParamsValid cfg.dp)
    (hvp : VaccineParamsValid cfg.vp) (hnp : NetworkParamsValid cfg.np)
    (hexp : ExpValid cfg.expQ) (hinit : ∀ i, PersonBounded (people i)) :
    (∀ q : Person, 0 ≤ computeSusceptibility cfg.dp q ∧
      computeSusceptibility cfg.dp q ≤ 1) ∧
    (∀ i, PersonBounded ((runSimulation cfg o days nSeeds people).people i)) ∧
    (∀ (src contact : Person) (mult : ℚ), PersonBounded src →
      (mult = cfg.np.relativeTransmissionHousehold ∨
       mult = cfg.np.relativeTransmissionOccupation ∨
       mult = cfg.np.relativeTransmissionRandom) →
      0 ≤ transmissionProbability cfg.dp (sourceBaseProb cfg.dp src) mult contact ∧
      transmissionProbability cfg.dp (sourceBaseProb cfg.dp src) mult contact ≤ 1) := by
  refine ⟨fun q => computeSusceptibility_bounds cfg.dp q, ?_, ?_⟩
  · exact simLoop_bounded cfg o hdp hvp hexp days 0 _
      (initializeSeeds_bounded cfg o nSeeds people hinit)
  · intro src contact mult hbsrc hmult
    refine transmissionProbability_bounds cfg.dp _ mult contact
      (sourceBaseProb_nonneg cfg.dp src hdp hbsrc) ?_
    rcases hmult with h | h | h <;> rw [h]
    · exact hnp.1
    · exact hnp.2.1
    · exact hnp.2.2

/-- Witness for claim C4 at the concrete claim-C5 configuration. -/
theorem C4_probability_bounds_witness :
    (∀ q : Person, 0 ≤ computeSusceptibility c5Cfg.dp q ∧
      computeSusceptibility c5Cfg.dp q ≤ 1) ∧
    (∀ i, PersonBounded ((runSimulation c5Cfg c5Oracle 1 0 c5Person).people i)) ∧
    (∀ (src contact : Person) (mult : ℚ), PersonBounded src →
      (mult = c5Cfg.np.relativeTransmissionHousehold ∨
       mult = c5Cfg.np.relativeTransmissionOccupation ∨
       mult = c5Cfg.np.relativeTransmissionRandom) →
      0 ≤ transmissionProbability c5Cfg.dp (sourceBaseProb c5Cfg.dp src) mult contact ∧
      transmissionProbability c5Cfg.dp (sourceBaseProb c5Cfg.dp src) mult contact ≤ 1) :=
  C4_probability_bounds c5Cfg c5Oracle 1 0 c5Person
    (by show DiseaseParamsValid defaultDisease
        unfold DiseaseParamsValid
        decide)
    (by show VaccineParamsValid defaultVaccine
        unfold VaccineParamsValid
        decide)
    (by show NetworkParamsValid defaultNetwork
        unfold NetworkParamsValid
        decide)
    (fun x hx => ⟨zero_le_one, le_refl 1⟩)
    (fun i => ⟨le_refl 0, zero_le_one, le_refl 0, zero_le_one, le_refl 0, zero_le_one,
      le_refl 0, zero_le_one,
      (by show ∀ v ∈ c5Profile, 0 ≤ v ∧ v ≤ 1
          decide),
      zero_le_one⟩)


theorem sampleList_length (draw : ℕ → ℕ) :
    ∀ (n : ℕ) (l : List ℕ), (sampleList draw n l).length = min n l.length := by
  intro n
  induction n with
  | zero => intro l; simp [sampleList]
  | succ m ih =>
    intro l
    cases l with
    | nil => simp [sampleList]
    | cons x xs =>
      simp only [sampleList]
      rw [List.length_cons, ih, List.length_eraseIdx]
      have hk : (draw (m + 1)) % (x :: xs).length < (x :: xs).length :=
        Nat.mod_lt _ (by simp)
      rw [if_pos hk]
      simp only [List.length_cons]
      omega

theorem sampleList_subset (draw : ℕ → ℕ) :
    ∀ (n : ℕ) (l : List ℕ) (a : ℕ), a ∈ sampleList draw n l → a ∈ l := by
  intro n
  induction n with
  | zero => intro l a h; simp [sampleList] at h
  | succ m ih =>
    intro l a h
    cases l with
    | nil => simp [sampleList] at h
    | cons x xs =>
      simp only [sampleList, List.mem_cons] at h
      rcases h with h | h
      · rw [h]
        have hk : (draw (m + 1)) % (x :: xs).length < (x :: xs).length :=
          Nat.mod_lt _ (by simp)
        rw [List.getD_eq_getElem _ _ hk]
        exact List.getElem_mem hk
      · exact List.mem_of_mem_eraseIdx (ih _ a h)

theorem sampleList_nodup (draw : ℕ → ℕ) :
    ∀ (n : ℕ) (l : List ℕ), l.Nodup → (sampleList draw n l).Nodup := by
  intro n
  induction n with
  | zero => intro l _; simp [sampleList]
  | succ m ih =>
    intro l hl
    cases l with
    | nil => simp [sampleList]
    | cons x xs =>
      simp only [sampleList]
      have hk : (draw (m + 1)) % (x :: xs).length < (x :: xs).length :=
        Nat.mod_lt _ (by simp)
      refine List.Nodup.cons ?_ (ih _ (List.Nodup.eraseIdx _ hl))
      intro hmem
      have h1 := sampleList_subset draw m _ _ hmem
      rw [List.getD_eq_getElem _ _ hk] at h1
      obtain ⟨i, hi, hne, heq⟩ := List.mem_eraseIdx_iff_getElem.mp h1
      exact hne ((List.Nodup.getElem_inj_iff hl).mp heq)

theorem seedPool_fresh (cfg : Config) (people : ℕ → Person)
    (hAlign : ∀ i, (people i).id = i)
    (hFresh : ∀ i, (people i).diseaseState = .susceptible) :
    seedPool cfg people = List.range cfg.size := by
  simp only [seedPool, snapshot]
  rw [List.filter_eq_self.mpr, List.map_map]
  · have : ((fun p => p.id) ∘ people) = fun i => (people i).id := rfl
    rw [this]
    calc (List.range cfg.size).map (fun i => (people i).id)
        = (List.range cfg.size).map (fun i => i) := by
          refine List.map_congr_left ?_
          intro a _
          exact hAlign a
      _ = List.range cfg.size := List.map_id _
  · intro p hp
    obtain ⟨i, _, hpi⟩ := List.mem_map.mp hp
    rw [← hpi]
    simp [hFresh i]

theorem seedOne_state (cfg : Config) (o : Oracle) (pm : ℕ → Person) (pid i : ℕ) :
    (seedOne cfg o pm pid i).diseaseState =
      if i = pid then DiseaseState.presymptomatic else (pm i).diseaseState := by
  simp only [seedOne]
  by_cases hip : i = pid
  · subst hip
    rw [if_pos rfl, Function.update_same, setDiseaseProgression_state]
  · rw [if_neg hip, Function.update_noteq hip]

theorem seedFold_state (cfg : Config) (o : Oracle) :
    ∀ (seeds : List ℕ) (pm : ℕ → Person) (i : ℕ),
      ((seeds.foldl (seedOne cfg o) pm) i).diseaseState =
        if i ∈ seeds then DiseaseState.presymptomatic else (pm i).diseaseState := by
  intro seeds
  induction seeds with
  | nil => intro pm i; simp
  | cons a t ih =>
    intro pm i
    simp only [List.foldl_cons]
    rw [ih]
    by_cases hit : i ∈ t
    · rw [if_pos hit, if_pos (List.mem_cons_of_mem a hit)]
    · rw [if_neg hit, seedOne_state]
      by_cases hia : i = a
      · rw [if_pos hia, if_pos (by rw [hia]; exact List.mem_cons_self a t)]
      · rw [if_neg hia, if_neg (by simp [hia, hit])]

theorem initializeSeeds_state (cfg : Config) (o : Oracle) (nSeeds : ℕ)
    (people : ℕ → Person) (i : ℕ) :
    (initializeSeeds cfg o nSeeds people i).diseaseState =
      if i ∈ sampleList o.seedDraw (min nSeeds (seedPool cfg people).length)
          (seedPool cfg people)
        then DiseaseState.presymptomatic else (people i).diseaseState := by
  simp only [initializeSeeds]
  exact seedFold_state cfg o _ people i

theorem countP_mem_of_nodup (S R : List ℕ) (hS : S.Nodup) (hR : R.Nodup)
    (hsub : ∀ a ∈ S, a ∈ R) :
    R.countP (fun i => decide (i ∈ S)) = S.length := by
  rw [List.countP_eq_length_filter]
  refine List.Perm.length_eq ?_
  rw [List.perm_ext_iff_of_nodup (List.Nodup.filter _ hR) hS]
  intro a
  simp only [List.mem_filter, decide_eq_true_eq]
  exact ⟨fun h => h.2, fun h => ⟨hsub a h, h⟩⟩

theorem seeded_infected_count (cfg : Config) (o : Oracle) (nSeeds : ℕ)
    (people : ℕ → Person) (hAlign : ∀ i, (people i).id = i)
    (hFresh : ∀ i, (people i).diseaseState = .susceptible) :
    (List.range cfg.size).countP
      (fun i => isInfected (initializeSeeds cfg o nSeeds people i)) =
      min nSeeds cfg.size := by
  have hpool := seedPool_fresh cfg people hAlign hFresh
  have hlen : (seedPool cfg people).length = cfg.size := by
    rw [hpool, List.length_range]
  set seeds := sampleList o.seedDraw (min nSeeds (seedPool cfg people).length)
    (seedPool cfg people) with hseeds
  have hnodup : seeds.Nodup := by
    rw [hseeds, hpool]
    exact sampleList_nodup o.seedDraw _ _ (List.nodup_range cfg.size)
  have hsub : ∀ a ∈ seeds, a ∈ List.range cfg.size := by
    intro a ha
    rw [hseeds, hpool] at ha
    exact sampleList_subset o.seedDraw _ _ a ha
  have hslen : seeds.length = min nSeeds cfg.size := by
    rw [hseeds, sampleList_length, hlen]
    omega
  rw [← hslen, ← countP_mem_of_nodup seeds (List.range cfg.size) hnodup
    (List.nodup_range cfg.size) hsub]
  refine List.countP_congr ?_
  intro i _
  simp only [isInfected]
  rw [initializeSeeds_state, ← hseeds]
  by_cases hmem : i ∈ seeds
  · simp [hmem, activeStates]
  · simp [hmem, activeStates, hFresh i]

theorem quarantinePerson_state (ip : InterventionParameters) (o : Oracle) (day : ℤ)
    (p : Person) : (quarantinePerson ip o day p).diseaseState = p.diseaseState := by
  simp only [quarantinePerson]
  split_ifs <;> rfl

theorem administerVaccineDose_state (vp : VaccineParameters) (e : ℚ → ℚ) (day : ℤ)
    (p : Person) : (administerVaccineDose vp e day p).diseaseState = p.diseaseState := by
  simp only [administerVaccineDose]
  rw [updateVaccineProtection_state]
  split_ifs <;> rfl

theorem vaccinatePerson_state (vp : VaccineParameters) (e : ℚ → ℚ) (o : Oracle)
    (day : ℤ) (p : Person) :
    (vaccinatePerson vp e o day p).diseaseState = p.diseaseState := by
  simp only [vaccinatePerson]
  split_ifs <;> first
    | rfl
    | exact administerVaccineDose_state vp e day p

theorem interventionStep_state (cfg : Config) (o : Oracle) (day : ℤ)
    (people : ℕ → Person) (i : ℕ) :
    (interventionStep cfg o day people i).diseaseState = (people i).diseaseState := by
  simp only [interventionStep]
  split_ifs
  · exact quarantinePerson_state cfg.ip o day (people i)
  · rfl

theorem vaccinationStep_state (cfg : Config) (o : Oracle) (day : ℤ)
    (people : ℕ → Person) (i : ℕ) :
    (vaccinationStep cfg o day people i).diseaseState = (people i).diseaseState := by
  simp only [vaccinationStep]
  split_ifs
  · rfl
  · exact vaccinatePerson_state cfg.vp cfg.expQ o day (people i)

set_option maxHeartbeats 800000 in
theorem progressActive_presym_active (dp : DiseaseParameters) (day : ℤ) (q : Person)
    (h : q.diseaseState = .presymptomatic) :
    (progressActive dp day q).diseaseState ∈ activeStates := by
  simp only [progressActive]
  rw [if_pos (show q.diseaseState ∈ activeStates by rw [h]; decide)]
  simp only [h]
  split_ifs <;> simp [activeStates]

theorem progressPerson_presym_active (cfg : Config) (o : Oracle) (day : ℤ) (p : Person)
    (h : p.diseaseState = .presymptomatic) :
    (progressPerson cfg o day p).diseaseState ∈ activeStates := by
  have hs : (updateVaccineProtection cfg.vp cfg.expQ day
      (quarantineRelease cfg.ip day p)).diseaseState = DiseaseState.presymptomatic := by
    rw [updateVaccineProtection_state, quarantineRelease_state, h]
  simp only [progressPerson]
  rw [if_neg (by rw [hs]; simp), if_neg (by rw [hs]; simp [recoveredStates])]
  exact progressActive_presym_active cfg.dp day _ hs

theorem transmissionStep_active (cfg : Config) (o : Oracle) (day : ℤ)
    (people : ℕ → Person) (events : List TransmissionEvent) (i : ℕ)
    (h : (people i).diseaseState ∈ activeStates) :
    ((transmissionStep cfg o day (people, events)).1 i).diseaseState ∈ activeStates := by
  rcases transmissionStep_inv cfg o day people events i with heq | ⟨_, _, heq⟩
  · rw [heq]; exact h
  · rw [heq, infectPerson_state]
    simp [activeStates]

theorem stepDay_presym_active (cfg : Config) (o : Oracle) (day : ℤ) (s : SimState)
    (i : ℕ) (h : (s.people i).diseaseState = .presymptomatic) :
    ((stepDay cfg o day s).people i).diseaseState ∈ activeStates := by
  simp only [stepDay]
  rw [vaccinationStep_state, interventionStep_state]
  refine transmissionStep_active cfg o day _ s.events i ?_
  have : (progressionStep cfg o day s.people i).diseaseState ∈ activeStates :=
    progressPerson_presym_active cfg o day (s.people i) h
  exact this

/-- Amended claim C5: seeding infects exactly `min(n_seeds, #susceptible)`
agents before the daily loop (with a fresh, id-aligned population the
susceptible pool is everyone), and the infected count recorded for day 0 is
at least that number — it can exceed it because statistics are recorded
only after the full day-0 step, which already includes transmission. -/
theorem C5_amended (cfg : Config) (o : Oracle) (d nSeeds : ℕ)
    (people : ℕ → Person) (hAlign : ∀ i, (people i).id = i)
    (hFresh : ∀ i, (people i).diseaseState = .susceptible) :
    (List.range cfg.size).countP
        (fun i => isInfected (initializeSeeds cfg o nSeeds people i)) =
      min nSeeds cfg.size ∧
    ∀ row, (runSimulation cfg o (d + 1) nSeeds people).rows.head? = some row →
      min nSeeds cfg.size ≤ row.infected := by
  refine ⟨seeded_infected_count cfg o nSeeds people hAlign hFresh, ?_⟩
  intro row hrow
  rw [runSimulation_rows_head] at hrow
  simp only [recordDailyStats, List.nil_append, List.head?_cons, Option.some.injEq]
    at hrow
  rw [← hrow]
  have hcount := seeded_infected_count cfg o nSeeds people hAlign hFresh
  calc min nSeeds cfg.size
      = (List.range cfg.size).countP
          (fun i => isInfected (initializeSeeds cfg o nSeeds people i)) :=
        hcount.symm
    _ ≤ (List.range cfg.size).countP (fun i => isInfected
          ((stepDay cfg o 0 ⟨initializeSeeds cfg o nSeeds people, [], []⟩).people i)) := by
        refine List.countP_mono_left ?_
        intro i _ hi
        simp only [isInfected, decide_eq_true_eq] at hi ⊢
        have hstate : (initializeSeeds cfg o nSeeds people i).diseaseState =
            DiseaseState.presymptomatic := by
          by_contra hne
          rw [initializeSeeds_state] at hne hi
          split_ifs at hne hi with hmem
          · exact hne rfl
          · rw [hFresh i] at hi
            simp [activeStates] at hi
        exact stepDay_presym_active cfg o 0
          ⟨initializeSeeds cfg o nSeeds people, [], []⟩ i hstate
    _ = (snapshot cfg.size
          (stepDay cfg o 0 ⟨initializeSeeds cfg o nSeeds people, [], []⟩).people).countP
          isInfected := by
        rw [snapshot, List.countP_map]
        rfl

/-- Witness for the amended claim C5 at the concrete C5 scenario (the run of
the counterexample): 5 agents are infected by seeding and the day-0 infected
count is at least 5. -/
theorem C5_amended_witness :
    (List.range c5Cfg.size).countP
        (fun i => isInfected (initializeSeeds c5Cfg c5Oracle 5 c5Person i)) =
      min 5 c5Cfg.size ∧
    ∀ row, (runSimulation c5Cfg c5Oracle (2 + 1) 5 c5Person).rows.head? = some row →
      min 5 c5Cfg.size ≤ row.infected :=
  C5_amended c5Cfg c5Oracle 2 5 c5Person (fun _ => rfl) (fun _ => rfl)

/-- Claim C6: counterexample — occupation-group formation can place an agent
in two occupation member lists.  With one working-age adult and three
elderly agents, the adult (agent 0) is first assigned to workplace group 0;
the elderly group formation then recruits the same adult as staff (the
`remaining_adults` list is not reduced by workplace assignment), so agent 0
appears in both member lists. -/
theorem C6_occupation_overlap :
    (createOccupationNetworks defaultNetwork c6OccOracle 4 c6Person).2 =
      [[0], [1, 2, 3, 0]] ∧
    0 ∈ ((createOccupationNetworks defaultNetwork c6OccOracle 4 c6Person).2.getD 0 []) ∧
    0 ∈ ((createOccupationNetworks defaultNetwork c6OccOracle 4 c6Person).2.getD 1 []) := by
  decide
